import Mathlib

/-!
Diagnostic type presentation of the C front end (`gcc/c/c-objc-common.c`).

A shallow embedding of `useful_aka_type_p`, `print_type`, `c_tree_printer` and
`range_label_for_type_mismatch::get_text`, and the properties of them that the
specification states.

Data model.

A `tree` is a pointer to a node of the compiler's program representation, or
the null pointer.  A value of the Lean type `tree` is either `NULL_TREE` or a
node: its address (`uid`), its `TREE_CODE`, and the values of the fields that
the accessors used in `c-objc-common.c` read.  The C comparison `a == b` of two
`tree` pointers is equality of the Lean values: two nodes at different
addresses differ in `uid`.

Reading a field through the null pointer does not return.  The embedded
functions therefore return an `Option`, and `none` stands for a run that does
not return (a null dereference, or a failed `gcc_assert`).

The text of a printer is the object of an obstack, which moves the object to a
new chunk of memory when it grows past the room of its chunk.  `print_type`
keeps the address of the text from before it prints the label, so the model
records, for a printer, the room of its chunk (`c_context.obstack_room`).

The declarations of `tree.h` and of the pretty printer are not part of the
source under study; the definitions that stand for them say so.

The types of the specification, as trees.

* `Alias (name, underlying)`: a type node for which `typedef_variant_p` holds;
  its `TYPE_NAME` is a `TYPE_DECL` whose `DECL_NAME` is `name` and whose
  `DECL_ORIGINAL_TYPE` is `underlying`.  The node has the tree code of the type
  it names.
* `Pointer`, `Reference`: `POINTER_TYPE`, `REFERENCE_TYPE`; `TREE_TYPE` is the
  inner type.
* `Array (domain, element)`: `ARRAY_TYPE`; `TYPE_DOMAIN` (null when absent) and
  `TREE_TYPE`.
* `Function (params, variadic, ret)`: `FUNCTION_TYPE`; `TYPE_ARG_TYPES` is a
  chain of `TREE_LIST` cells, one for each parameter, that ends with
  `void_list_node` when the function is not variadic and with the null pointer
  when it is; `TREE_TYPE` is the return type.
* `Tag (kind, name)`: `RECORD_TYPE`, `UNION_TYPE`, `ENUMERAL_TYPE`; `TYPE_NAME`
  is the identifier of the tag, or null.
* `ErrorType`: the node `error_mark_node`.
* any other type code: a type compared by identity and code only.
-/

set_option autoImplicit false

/-! ## Tree codes -/

/-- Modelled from the spec: `enum tree_code` (tree.def, not under src): the
codes that `c-objc-common.c` names, together with the other codes of the
classes it tests (`TYPE_P`, `DECL_P`) and two expression codes. -/
inductive tree_code where
  | ERROR_MARK
  | IDENTIFIER_NODE
  | TREE_LIST
  | OFFSET_TYPE
  | ENUMERAL_TYPE
  | BOOLEAN_TYPE
  | INTEGER_TYPE
  | REAL_TYPE
  | POINTER_TYPE
  | REFERENCE_TYPE
  | NULLPTR_TYPE
  | FIXED_POINT_TYPE
  | COMPLEX_TYPE
  | VECTOR_TYPE
  | ARRAY_TYPE
  | RECORD_TYPE
  | UNION_TYPE
  | QUAL_UNION_TYPE
  | VOID_TYPE
  | FUNCTION_TYPE
  | METHOD_TYPE
  | LANG_TYPE
  | FUNCTION_DECL
  | LABEL_DECL
  | FIELD_DECL
  | VAR_DECL
  | CONST_DECL
  | PARM_DECL
  | TYPE_DECL
  | RESULT_DECL
  | INTEGER_CST
  | CALL_EXPR
  deriving DecidableEq

/-! ## Tree nodes -/

/-- Modelled from the spec: `tree` (tree.h, not under src): the null pointer, or
a node.

The fields of a node, in order:
* `uid`: the address of the node;
* `code`: `TREE_CODE`;
* `str`: `IDENTIFIER_POINTER` (the spelling of an `IDENTIFIER_NODE`);
* `name`: `TYPE_NAME` of a type, `DECL_NAME` of a declaration;
* `type`: `TREE_TYPE` (pointee, element or return type of a type);
* `values`: `TYPE_DOMAIN` of an array type, `TYPE_ARG_TYPES` of a function
  type (one slot in `tree.h`);
* `value`: `TREE_VALUE` of a `TREE_LIST` cell;
* `chain`: `TREE_CHAIN`;
* `original_type`: `DECL_ORIGINAL_TYPE` of a `TYPE_DECL`. -/
inductive tree where
  | NULL_TREE : tree
  | node (uid : Nat) (code : tree_code) (str : String)
      (name type values value chain original_type : tree) : tree
  deriving DecidableEq

open tree tree_code

/-- Modelled from the spec: the accessor `TREE_CODE (t)` (tree.h); reading it
through the null pointer does not return. -/
def TREE_CODE : tree → Option tree_code
  | NULL_TREE => none
  | node _ code _ _ _ _ _ _ _ => some code

/-- Modelled from the spec: the accessor `TYPE_NAME (t)` (tree.h).  The value
of this and of the next accessors at `NULL_TREE` is never used by the embedded
functions: they have returned `none` before any read through a null pointer. -/
def TYPE_NAME : tree → tree
  | NULL_TREE => NULL_TREE
  | node _ _ _ name _ _ _ _ _ => name

/-- Modelled from the spec: the accessor `DECL_NAME (t)` (tree.h): the same slot as `TYPE_NAME`, read on a declaration. -/
def DECL_NAME : tree → tree
  | NULL_TREE => NULL_TREE
  | node _ _ _ name _ _ _ _ _ => name

/-- Modelled from the spec: the accessor `TREE_TYPE (t)` (tree.h). -/
def TREE_TYPE : tree → tree
  | NULL_TREE => NULL_TREE
  | node _ _ _ _ type _ _ _ _ => type

/-- Modelled from the spec: the accessor `TYPE_DOMAIN (t)` of an array type
(tree.h). -/
def TYPE_DOMAIN : tree → tree
  | NULL_TREE => NULL_TREE
  | node _ _ _ _ _ values _ _ _ => values

/-- Modelled from the spec: the accessor `TYPE_ARG_TYPES (t)` of a function type
(tree.h). -/
def TYPE_ARG_TYPES : tree → tree
  | NULL_TREE => NULL_TREE
  | node _ _ _ _ _ values _ _ _ => values

/-- Modelled from the spec: the accessor `TREE_VALUE (t)` of a `TREE_LIST` cell
(tree.h). -/
def TREE_VALUE : tree → tree
  | NULL_TREE => NULL_TREE
  | node _ _ _ _ _ _ value _ _ => value

/-- Modelled from the spec: the accessor `TREE_CHAIN (t)` (tree.h). -/
def TREE_CHAIN : tree → tree
  | NULL_TREE => NULL_TREE
  | node _ _ _ _ _ _ _ chain _ => chain

/-- Modelled from the spec: the accessor `DECL_ORIGINAL_TYPE (t)` of a
`TYPE_DECL` (tree.h). -/
def DECL_ORIGINAL_TYPE : tree → tree
  | NULL_TREE => NULL_TREE
  | node _ _ _ _ _ _ _ _ original_type => original_type

/-- Modelled from the spec: the accessor `IDENTIFIER_POINTER (t)` (tree.h). -/
def IDENTIFIER_POINTER : tree → String
  | NULL_TREE => ""
  | node _ _ str _ _ _ _ _ _ => str

/-- Modelled from the spec: the codes of class `tcc_type` (tree.def). -/
def tree_code.type_code_p : tree_code → Bool
  | OFFSET_TYPE | ENUMERAL_TYPE | BOOLEAN_TYPE | INTEGER_TYPE | REAL_TYPE
  | POINTER_TYPE | REFERENCE_TYPE | NULLPTR_TYPE | FIXED_POINT_TYPE
  | COMPLEX_TYPE | VECTOR_TYPE | ARRAY_TYPE | RECORD_TYPE | UNION_TYPE
  | QUAL_UNION_TYPE | VOID_TYPE | FUNCTION_TYPE | METHOD_TYPE | LANG_TYPE => true
  | _ => false

/-- Modelled from the spec: the codes of class `tcc_declaration` (tree.def). -/
def tree_code.decl_code_p : tree_code → Bool
  | FUNCTION_DECL | LABEL_DECL | FIELD_DECL | VAR_DECL | CONST_DECL
  | PARM_DECL | TYPE_DECL | RESULT_DECL => true
  | _ => false

/-- Modelled from the spec: `TYPE_P (t)` (tree.h): the node is a type. -/
def TYPE_P : tree → Bool
  | NULL_TREE => false
  | node _ code _ _ _ _ _ _ _ => code.type_code_p

/-- Modelled from the spec: `DECL_P (t)` (tree.h): the node is a declaration. -/
def DECL_P : tree → Bool
  | NULL_TREE => false
  | node _ code _ _ _ _ _ _ _ => code.decl_code_p

/-! ## Global trees -/

/-- Modelled from the spec: the global `error_mark_node` (tree.h): the one node
of code `ERROR_MARK`, the sentinel for a slot that was already diagnosed. -/
def error_mark_node : tree :=
  node 1 ERROR_MARK "" NULL_TREE NULL_TREE NULL_TREE NULL_TREE NULL_TREE NULL_TREE

/-- Modelled from the spec: the global `void_type_node` (tree.h): the type
`void`. -/
def void_type_node : tree :=
  node 2 VOID_TYPE "" NULL_TREE NULL_TREE NULL_TREE NULL_TREE NULL_TREE NULL_TREE

/-- Modelled from the spec: the global `void_list_node` (tree.h): the shared
`TREE_LIST` cell whose `TREE_VALUE` is `void_type_node`.  The `TYPE_ARG_TYPES`
of a function type is a chain of `TREE_LIST` cells; when the function takes a
fixed number of parameters the chain ends with this cell (the last
`TREE_VALUE` is `void_type_node`), and the chain of a variadic or unprototyped
function type ends with `NULL_TREE` (gcc/doc/generic.texi, on
`TYPE_ARG_TYPES`). -/
def void_list_node : tree :=
  node 3 TREE_LIST "" NULL_TREE NULL_TREE NULL_TREE void_type_node NULL_TREE NULL_TREE

/-! ## Helpers of `tree.h` used by `useful_aka_type_p` -/

/-- Modelled from the spec: `is_typedef_decl` (tree.c, not under src): the
declaration binds an identifier to another type, that is, it is a `TYPE_DECL`
with a `DECL_ORIGINAL_TYPE`. -/
def is_typedef_decl (x : tree) : Bool :=
  x ≠ NULL_TREE ∧ TREE_CODE x = some TYPE_DECL ∧ DECL_ORIGINAL_TYPE x ≠ NULL_TREE

/-- Modelled from the spec: `typedef_variant_p` (tree.c, not under src): the
type is an alias, a named type whose declaration binds an identifier to another
type. -/
def typedef_variant_p (type : tree) : Bool :=
  is_typedef_decl (TYPE_NAME type)

/-- Modelled from the spec: `TYPE_IDENTIFIER` (tree.h, not under src): the
identifier that names the type, whether `TYPE_NAME` is the identifier itself (a
tag) or a declaration; `NULL_TREE` when the type has no name. -/
def TYPE_IDENTIFIER (type : tree) : tree :=
  if TYPE_NAME type ≠ NULL_TREE ∧ DECL_P (TYPE_NAME type) = true
  then DECL_NAME (TYPE_NAME type) else TYPE_NAME type

/-- The C operator `a || b` on operands that may fail to return: `b` is
evaluated only when `a` returned false. -/
def c_or (a b : Option Bool) : Option Bool :=
  match a with
  | none => none
  | some true => some true
  | some false => b

/-- The `||` of a sequence of results, from left to right: `c_or` folded over
the list, false for the empty list. -/
def c_or_list : List (Option Bool) → Option Bool
  | [] => some false
  | a :: l => c_or a (c_or_list l)

/-! ## `useful_aka_type_p` -/

mutual
/-- `useful_aka_type_p (type1, type2)`: true if it's worth saying that TYPE1 is
also known as TYPE2.

The first two cases of the `match` are the read of `TREE_CODE` through a null
pointer.  In the third, `code1` is `TREE_CODE (type1)`, `tree_type1` is
`TREE_TYPE (type1)` and `values1` is `TYPE_DOMAIN (type1)` in the array case,
`TYPE_ARG_TYPES (type1)` in the function case; likewise for `type2`. -/
def useful_aka_type_p : tree → tree → Option Bool
  | type1, type2 =>
    if type1 = type2 then some false
    else if type1 = error_mark_node ∨ type2 = error_mark_node then some false
    else
      match type1, type2 with
      | NULL_TREE, _ => none
      | _, NULL_TREE => none
      | node _ code1 _ _ tree_type1 values1 _ _ _,
        node _ code2 _ _ tree_type2 values2 _ _ _ =>
        if code1 ≠ code2 then some true
        else if typedef_variant_p type1 = true then
          let code := code2
          let id2 := TYPE_IDENTIFIER type2
          if (code = RECORD_TYPE ∨ code = UNION_TYPE ∨ code = ENUMERAL_TYPE)
              ∧ (id2 = NULL_TREE ∨ TYPE_IDENTIFIER type1 = id2)
          then some false
          else some true
        else
          match code1 with
          | POINTER_TYPE | REFERENCE_TYPE =>
            useful_aka_type_p tree_type1 tree_type2
          | ARRAY_TYPE =>
            c_or (useful_aka_type_p values1 values2)
              (useful_aka_type_p tree_type1 tree_type2)
          | FUNCTION_TYPE =>
            match useful_aka_args values1 values2 with
            | none => none
            | some true => some true
            | some false => useful_aka_type_p tree_type1 tree_type2
          | _ => some true
/-- The `while (args1 != args2)` loop of the `FUNCTION_TYPE` case, started at the
two cells `args1` and `args2`.  `some true`: the loop executed `return true`;
`some false`: the loop was left with `args1 == args2`.  In the last case of the
`match`, `value1` is `TREE_VALUE (args1)` and `chain1` is `TREE_CHAIN (args1)`;
likewise for `args2`. -/
def useful_aka_args : tree → tree → Option Bool
  | args1, args2 =>
    if args1 = args2 then some false
    else if args1 = NULL_TREE ∨ args1 = void_type_node then some true
    else if args2 = NULL_TREE ∨ args2 = void_type_node then some true
    else
      match args1, args2 with
      | NULL_TREE, _ => none
      | _, NULL_TREE => none
      | node _ _ _ _ _ _ value1 chain1 _, node _ _ _ _ _ _ value2 chain2 _ =>
        match useful_aka_type_p value1 value2 with
        | none => none
        | some true => some true
        | some false => useful_aka_args chain1 chain2
end

/-! ## Parameter lists

The `TYPE_ARG_TYPES` of a function type seen as the sequence of its parameter
types. -/

/-- The parameter types that a `TYPE_ARG_TYPES` chain lists: the `TREE_VALUE` of
each cell, up to the end of the chain (`NULL_TREE`, or the cell
`void_list_node`). -/
def arg_values : tree → List tree
  | NULL_TREE => []
  | node uid code str name type values value chain original_type =>
    if node uid code str name type values value chain original_type = void_list_node
    then []
    else value :: arg_values chain

/-- The chain ends with `void_list_node`: the function type takes a fixed number
of parameters (it is not variadic). -/
def args_fixed_p : tree → Bool
  | NULL_TREE => false
  | node uid code str name type values value chain original_type =>
    if node uid code str name type values value chain original_type = void_list_node
    then true
    else args_fixed_p chain

/-- The chain is made of `TREE_LIST` cells. -/
def arg_list_p : tree → Bool
  | NULL_TREE => true
  | node uid code str name type values value chain original_type =>
    if node uid code str name type values value chain original_type = void_list_node
    then true
    else code = TREE_LIST && arg_list_p chain

/-! ## The pretty printer -/

/-- Modelled from the spec: `c_pretty_printer` (c-pretty-print.h, not under
src), the append-only RenderBuffer: the text formatted so far (the object of
its obstack) and its colour flag.  Where the text lies in memory is not part of
the value; see `c_context.obstack_room`. -/
structure c_pretty_printer where
  obstack : List Char
  show_color : Bool
  deriving DecidableEq, Repr

/-- Modelled from the spec: the services that `print_type` consumes and that are
not under src (sections 3 and 6 of the specification).
* `TYPE_CANONICAL`: the optional canonical form that each type carries
  (`NULL_TREE` when absent).  It is a table on the side and not a field of the
  node because a canonical type is its own `TYPE_CANONICAL`.
* `type_id`: the text that the type renderer `c_pretty_printer::type_id`
  appends for a type, the same in the shared buffer and in a scratch buffer.
* `decl_printable_name`: the text of `lang_hooks.decl_printable_name (decl, 2)`.
* `open_quote`, `close_quote`: the text that `pp_begin_quote` and
  `pp_end_quote` append, given `pp_show_color`.
* `obstack_room`: `obstack_room (ob)` (obstack.h) for the obstack of a printer:
  the number of bytes that the chunk of memory holding its text can still
  take.  Text that grows past it is moved by the obstack to a new chunk, at
  another address. -/
structure c_context where
  TYPE_CANONICAL : tree → tree
  type_id : tree → List Char
  decl_printable_name : tree → List Char
  open_quote : Bool → List Char
  close_quote : Bool → List Char
  obstack_room : c_pretty_printer → Nat

/-- Modelled from the spec: a printer as constructed by the declaration
`c_pretty_printer cpp2;`: a separate, empty scratch buffer. -/
def c_pretty_printer.fresh : c_pretty_printer := ⟨[], false⟩

/-- Modelled from the spec: `pp_string (pp, str)` (pretty-print.h): append
text. -/
def pp_string (pp : c_pretty_printer) (str : List Char) : c_pretty_printer :=
  ⟨pp.obstack ++ str, pp.show_color⟩

/-- Modelled from the spec: `pp_identifier (pp, id)` (pretty-print.h): append
the identifier. -/
def pp_identifier (pp : c_pretty_printer) (id : List Char) : c_pretty_printer :=
  pp_string pp id

/-- Modelled from the spec: `pp_c_whitespace (pp)` (c-pretty-print.h): append
the separator, a space. -/
def pp_c_whitespace (pp : c_pretty_printer) : c_pretty_printer :=
  pp_string pp " ".toList

/-- Modelled from the spec: `pp_left_brace (pp)` (pretty-print.h): append an
open brace. -/
def pp_left_brace (pp : c_pretty_printer) : c_pretty_printer :=
  pp_string pp "\x7b".toList

/-- Modelled from the spec: `pp_right_brace (pp)` (pretty-print.h): append a
closing brace. -/
def pp_right_brace (pp : c_pretty_printer) : c_pretty_printer :=
  pp_string pp "\x7d".toList

/-- Modelled from the spec: `pp_c_ws_string (pp, str)` (c-pretty-print.h):
append the word. -/
def pp_c_ws_string (pp : c_pretty_printer) (str : List Char) : c_pretty_printer :=
  pp_string pp str

/-- Modelled from the spec: `pp_show_color (pp)` (pretty-print.h). -/
def pp_show_color (pp : c_pretty_printer) : Bool :=
  pp.show_color

/-- Modelled from the spec: `pp_begin_quote (pp, show_color)` (pretty-print.h):
open a quoting region. -/
def pp_begin_quote (cx : c_context) (pp : c_pretty_printer) (show_color : Bool) :
    c_pretty_printer :=
  pp_string pp (cx.open_quote show_color)

/-- Modelled from the spec: `pp_end_quote (pp, show_color)` (pretty-print.h):
close the quoting region. -/
def pp_end_quote (cx : c_context) (pp : c_pretty_printer) (show_color : Bool) :
    c_pretty_printer :=
  pp_string pp (cx.close_quote show_color)

/-- Modelled from the spec: the call `cpp->type_id (t)` (c-pretty-print.c, not
under src): the type renderer appends the spelling of `t`. -/
def c_pretty_printer.type_id (cx : c_context) (cpp : c_pretty_printer) (t : tree) :
    c_pretty_printer :=
  pp_string cpp (cx.type_id t)

/-- Modelled from the spec: `memcmp (a, b, n) == 0` (the C library): the first
`n` bytes at `a` and at `b` are the same. -/
def memcmp_eq (a b : List Char) (n : Nat) : Bool :=
  a.take n = b.take n

/-- The test `memcmp (p + len, aka, aka_len) == 0` of `print_type`, where `p` is
the address that the text had before the label was printed (`p` is not read
again afterwards) and `printed` is the text printed since.  When `printed` fits
in `room`, the bytes free at `p` before, the text is still at `p` and
`p + len` is where `printed` starts.  When it does not fit, the obstack has
moved the text to a new chunk while it grew: `p` is stale, the label is not at
`p + len`, and the bytes compared are not the text printed; the test is taken
to fail. -/
def memcmp_at_p (room : Nat) (printed aka : List Char) (aka_len : Nat) : Bool :=
  if printed.length ≤ room then memcmp_eq printed aka aka_len else false

/-! ## `print_type` -/

/-- `print_type (cpp, t, quoted)`: print T to CPP.  The result is the printer
and the value of `*quoted` afterwards. -/
def print_type (cx : c_context) (cpp : c_pretty_printer) (t : tree) (quoted : Bool) :
    Option (c_pretty_printer × Bool) :=
  -- gcc_assert (TYPE_P (t))
  if TYPE_P t = false then none
  else
    -- char *p = (char *) obstack_base (ob): the address of the text now, in a
    -- chunk that can take `room` more bytes.
    let room := cx.obstack_room cpp
    -- Remember the end of the initial dump.
    let len := cpp.obstack.length
    let name := TYPE_NAME t
    let cpp :=
      if name ≠ NULL_TREE ∧ TREE_CODE name = some TYPE_DECL ∧ DECL_NAME name ≠ NULL_TREE
      then pp_identifier cpp (cx.decl_printable_name name)
      else c_pretty_printer.type_id cx cpp t
    if cx.TYPE_CANONICAL t = NULL_TREE then some (cpp, quoted)
    else
      match useful_aka_type_p t (cx.TYPE_CANONICAL t) with
      | none => none
      | some false => some (cpp, quoted)
      | some true =>
        -- Print the stripped version into a temporary printer.
        let cpp2 := c_pretty_printer.type_id cx c_pretty_printer.fresh (cx.TYPE_CANONICAL t)
        let aka := cpp2.obstack
        let aka_len := aka.length
        let type1_len := cpp.obstack.length - len
        -- If they are identical, bail out.
        if aka_len = type1_len
            ∧ memcmp_at_p room (cpp.obstack.drop len) aka aka_len = true then
          some (cpp, quoted)
        else
          -- They're not, print the stripped version now.
          let cpp := if quoted then pp_end_quote cx cpp (pp_show_color cpp) else cpp
          let cpp := pp_c_whitespace cpp
          let cpp := pp_left_brace cpp
          let cpp := pp_c_ws_string cpp "aka".toList
          let cpp := pp_c_whitespace cpp
          let cpp := if quoted then pp_begin_quote cx cpp (pp_show_color cpp) else cpp
          let cpp := c_pretty_printer.type_id cx cpp (cx.TYPE_CANONICAL t)
          let cpp := if quoted then pp_end_quote cx cpp (pp_show_color cpp) else cpp
          let cpp := pp_right_brace cpp
          -- No further closing quotes are needed.
          some (cpp, false)

/-- The text that `print_type` appends first, before any aka clause: the
printable name of the declaration when `TYPE_NAME (t)` is a `TYPE_DECL` that has
a `DECL_NAME`, the spelling given by the type renderer otherwise. -/
def primary_label (cx : c_context) (t : tree) : List Char :=
  if TYPE_NAME t ≠ NULL_TREE ∧ TREE_CODE (TYPE_NAME t) = some TYPE_DECL
      ∧ DECL_NAME (TYPE_NAME t) ≠ NULL_TREE
  then cx.decl_printable_name (TYPE_NAME t)
  else cx.type_id t

/-- The aka clause for the canonical form `c`, as the specification words it:
an end-quote marker when `quoted`, the text `" {aka "`, a begin-quote marker
when `quoted`, the spelling of `c`, an end-quote marker when `quoted`, and
`"}"`. -/
def aka_clause (cx : c_context) (show_color quoted : Bool) (c : tree) : List Char :=
  (if quoted then cx.close_quote show_color else [])
    ++ " \x7baka ".toList
    ++ (if quoted then cx.open_quote show_color else [])
    ++ cx.type_id c
    ++ (if quoted then cx.close_quote show_color else [])
    ++ "\x7d".toList

/-- The primary label as the specification words it: the declared name when the
type is an alias, its structural spelling otherwise. -/
def primary_label_as_stated (cx : c_context) (t : tree) : List Char :=
  if typedef_variant_p t = true then cx.decl_printable_name (TYPE_NAME t) else cx.type_id t

/-! ## Example trees -/

/-- The node of the identifier spelled `s`.  Identifiers are interned, one node
for each spelling, so the spelling stands for the address. -/
def get_identifier (s : String) : tree :=
  node 0 IDENTIFIER_NODE s NULL_TREE NULL_TREE NULL_TREE NULL_TREE NULL_TREE NULL_TREE

/-- A type node at address `uid`. -/
def make_type (uid : Nat) (code : tree_code) (name type values : tree) : tree :=
  node uid code "" name type values NULL_TREE NULL_TREE NULL_TREE

/-- A `TYPE_DECL` at address `uid` that declares `name`; `original_type` is the
type that a typedef names, `NULL_TREE` for the declaration of a builtin type. -/
def make_type_decl (uid : Nat) (name : String) (original_type : tree) : tree :=
  node uid TYPE_DECL "" (get_identifier name) NULL_TREE NULL_TREE NULL_TREE NULL_TREE
    original_type

/-- `tree_cons`: a `TREE_LIST` cell at address `uid`. -/
def tree_cons (uid : Nat) (value chain : tree) : tree :=
  node uid TREE_LIST "" NULL_TREE NULL_TREE NULL_TREE value chain NULL_TREE

/-- The type `struct Foo`. -/
def struct_Foo : tree := make_type 10 RECORD_TYPE (get_identifier "Foo") NULL_TREE NULL_TREE

/-- The type `Foo` of `typedef struct Foo Foo;`. -/
def typedef_Foo : tree :=
  make_type 12 RECORD_TYPE (make_type_decl 11 "Foo" struct_Foo) NULL_TREE NULL_TREE

/-- An anonymous `struct`. -/
def struct_anon : tree := make_type 13 RECORD_TYPE NULL_TREE NULL_TREE NULL_TREE

/-- The type `Foo` of `typedef struct { } Foo;`. -/
def typedef_Foo_anon : tree :=
  make_type 15 RECORD_TYPE (make_type_decl 14 "Foo" struct_anon) NULL_TREE NULL_TREE

/-- The type `struct Bar`. -/
def struct_Bar : tree := make_type 16 RECORD_TYPE (get_identifier "Bar") NULL_TREE NULL_TREE

/-- The type `Foo` of `typedef struct Bar Foo;`. -/
def typedef_Foo_Bar : tree :=
  make_type 18 RECORD_TYPE (make_type_decl 17 "Foo" struct_Bar) NULL_TREE NULL_TREE

/-- The type `struct v16`. -/
def struct_v16 : tree := make_type 20 RECORD_TYPE (get_identifier "v16") NULL_TREE NULL_TREE

/-- The type `myvec` of `typedef struct v16 myvec;`. -/
def typedef_myvec : tree :=
  make_type 22 RECORD_TYPE (make_type_decl 21 "myvec" struct_v16) NULL_TREE NULL_TREE

/-- The type `myvec *`. -/
def pointer_myvec : tree := make_type 23 POINTER_TYPE NULL_TREE typedef_myvec NULL_TREE

/-- The type `struct v16 *`. -/
def pointer_v16 : tree := make_type 24 POINTER_TYPE NULL_TREE struct_v16 NULL_TREE

/-- The builtin type `int`: its `TYPE_NAME` is a `TYPE_DECL` that has no
`DECL_ORIGINAL_TYPE`. -/
def integer_type : tree :=
  make_type 31 INTEGER_TYPE (make_type_decl 30 "int" NULL_TREE) NULL_TREE NULL_TREE

/-- The type `myint` of `typedef int myint;`. -/
def typedef_myint : tree :=
  make_type 33 INTEGER_TYPE (make_type_decl 32 "myint" integer_type) NULL_TREE NULL_TREE

/-- The type `float`. -/
def float_type : tree :=
  make_type 35 REAL_TYPE (make_type_decl 34 "float" NULL_TREE) NULL_TREE NULL_TREE

/-- The type `int[]`, an array with no domain. -/
def array_int : tree := make_type 40 ARRAY_TYPE NULL_TREE integer_type NULL_TREE

/-- The type `myint[]`, an array with no domain. -/
def array_myint : tree := make_type 41 ARRAY_TYPE NULL_TREE typedef_myint NULL_TREE

/-- The function type `int (int)`: a prototype with one parameter. -/
def function_int : tree :=
  make_type 51 FUNCTION_TYPE NULL_TREE integer_type (tree_cons 50 integer_type void_list_node)

/-- The function type `int (int, <erroneous>, ...)`: a variadic prototype with
two parameters, the second of which was already diagnosed (its type is
`error_mark_node`). -/
def function_int_error_variadic : tree :=
  make_type 54 FUNCTION_TYPE NULL_TREE integer_type
    (tree_cons 53 integer_type (tree_cons 52 error_mark_node NULL_TREE))

/-- The function type `int (myint)`. -/
def function_myint : tree :=
  make_type 56 FUNCTION_TYPE NULL_TREE integer_type (tree_cons 55 typedef_myint void_list_node)

/-- The type `const int`: a variant of `int`; the variants of a type share its
`TYPE_NAME`. -/
def const_integer_type : tree :=
  make_type 36 INTEGER_TYPE (make_type_decl 30 "int" NULL_TREE) NULL_TREE NULL_TREE

/-- A context for the examples: typedef variants have the type they name as
canonical form, `myvec` has none (structural equality), every other type is its
own canonical form; a declaration prints as the spelling of its name; the quote
marks are those of a UTF-8 locale; the text of a printer lies at the start of a
chunk of the default size, which holds 4048 bytes. -/
def example_context : c_context where
  TYPE_CANONICAL := fun t =>
    if t = typedef_myint then integer_type
    else if t = typedef_Foo then struct_Foo
    else if t = typedef_Foo_Bar then struct_Bar
    else if t = typedef_myvec then NULL_TREE
    else t
  type_id := fun t =>
    if t = integer_type then "int".toList
    else if t = const_integer_type then "const int".toList
    else if t = struct_Foo then "struct Foo".toList
    else if t = struct_Bar then "struct Bar".toList
    else "?".toList
  decl_printable_name := fun d => (IDENTIFIER_POINTER (DECL_NAME d)).toList
  open_quote := fun _ => "‘".toList
  close_quote := fun _ => "’".toList
  obstack_room := fun cpp => 4048 - cpp.obstack.length

/-- A builtin vector type without a name. -/
def vector_int8x8 : tree := make_type 70 VECTOR_TYPE NULL_TREE NULL_TREE NULL_TREE

/-- The type `int8x8_t` of a typedef that names `vector_int8x8`. -/
def typedef_int8x8 : tree :=
  make_type 72 VECTOR_TYPE (make_type_decl 71 "int8x8_t" vector_int8x8) NULL_TREE NULL_TREE

/-- A context in which the renderer spells the builtin vector type by the name
of its typedef: the canonical form of `int8x8_t` prints as `int8x8_t`.  The
text of a printer lies at the start of a chunk of the default size, which holds
4048 bytes. -/
def vector_context : c_context where
  TYPE_CANONICAL := fun t => if t = typedef_int8x8 then vector_int8x8 else t
  type_id := fun t => if t = vector_int8x8 then "int8x8_t".toList else "?".toList
  decl_printable_name := fun d => (IDENTIFIER_POINTER (DECL_NAME d)).toList
  open_quote := fun _ => "‘".toList
  close_quote := fun _ => "’".toList
  obstack_room := fun cpp => 4048 - cpp.obstack.length

/-- A printer that holds `n` bytes of earlier text. -/
def printer_with (n : Nat) : c_pretty_printer := ⟨List.replicate n 'a', false⟩

/-! ## The format decoder `c_tree_printer` -/

/-- Modelled from the spec: `location_t` (input.h, not under src): a source
position. -/
abbrev location_t := Nat

/-- Modelled from the spec: `enum range_display_kind` (libcpp, not under src):
the presentation modes of a location range. -/
inductive range_display_kind where
  | SHOW_RANGE_WITH_CARET
  | SHOW_RANGE_WITHOUT_CARET
  | SHOW_LINES_WITHOUT_RANGE
  deriving DecidableEq

/-- Modelled from the spec: `enum pp_padding` (pretty-print.h, not under src). -/
inductive pp_padding where
  | pp_none
  | pp_before
  | pp_after
  deriving DecidableEq

/-- One argument of the variable argument list of a diagnostic: a `tree`, an
`int`, or a Gimple statement (its address). -/
inductive va_value where
  | tree_value (t : tree)
  | int_value (i : Int)
  | gimple_value (uid : Nat)
  deriving DecidableEq

/-- Modelled from the spec: `text_info` (pretty-print.h, not under src): the
arguments of the message that are not consumed yet (`*text->args_ptr`), and the
primary location of the message (range 0 of its rich location) with its
presentation mode. -/
structure text_info where
  args : List va_value
  location : location_t
  display : range_display_kind
  deriving DecidableEq

/-- Modelled from the spec: `text->set_location (0, loc, kind)`: set the primary
location of the message. -/
def text_info.set_location (text : text_info) (loc : location_t)
    (kind : range_display_kind) : text_info :=
  ⟨text.args, loc, kind⟩

/-- The expression `va_arg (*text->args_ptr, tree)`: the next argument, which is
consumed.  It does not return a value when there is no next argument or when
the next argument is not a `tree`. -/
def va_arg_tree (text : text_info) : Option (tree × text_info) :=
  match text.args with
  | va_value.tree_value t :: rest => some (t, ⟨rest, text.location, text.display⟩)
  | _ => none

/-- The expression `va_arg (*text->args_ptr, int)`. -/
def va_arg_int (text : text_info) : Option (Int × text_info) :=
  match text.args with
  | va_value.int_value i :: rest => some (i, ⟨rest, text.location, text.display⟩)
  | _ => none

/-- The object `pp` that `c_tree_printer` receives: the text and colour flag of
the `c_pretty_printer` that it is (`base`), and its `padding` flag. -/
structure pretty_printer where
  base : c_pretty_printer
  padding : pp_padding
  deriving DecidableEq

/-- Modelled from the spec: the services that `c_tree_printer` consumes and that
are not under src (section 6 of the specification), and the fields of
declarations and expressions that it reads.
* `cx`: the services of `print_type`.
* `expression`: the text that `cpp->expression (t)` appends.
* `type_qualifier_list`: the text that `pp_c_type_qualifier_list (cpp, t)`
  appends.
* `cv_qualifiers`: the text that `pp_c_cv_qualifiers (cpp, bits, hash)` appends.
* `percent_G_format`, `percent_K_format`: the statement and call-site
  formatters, which work on the message.
* `EXPR_LOCATION`, `TREE_BLOCK`, `DECL_SOURCE_LOCATION`,
  `DECL_HAS_DEBUG_EXPR_P`, `DECL_DEBUG_EXPR`: the accessors of tree.h. -/
structure c_printer_context where
  cx : c_context
  expression : tree → List Char
  type_qualifier_list : tree → List Char
  cv_qualifiers : Int → Bool → List Char
  percent_G_format : text_info → text_info
  percent_K_format : text_info → location_t → tree → text_info
  EXPR_LOCATION : tree → location_t
  TREE_BLOCK : tree → tree
  DECL_SOURCE_LOCATION : tree → location_t
  DECL_HAS_DEBUG_EXPR_P : tree → Bool
  DECL_DEBUG_EXPR : tree → tree

/-- Modelled from the spec: `VAR_P (t)` (tree.h): the node is a `VAR_DECL`. -/
def VAR_P (t : tree) : Bool :=
  TREE_CODE t = some VAR_DECL

/-- The text of `_("({anonymous})")`. -/
def anonymous_text : List Char := "(\x7banonymous\x7d)".toList

/-- What `c_tree_printer` leaves: its return value (true: the directive was
handled), the printer, the message and `*quoted`. -/
structure printer_result where
  handled : Bool
  pp : pretty_printer
  text : text_info
  quoted : Bool
  deriving DecidableEq

/-- The statements `if (*spec != 'v') { t = va_arg (*text->args_ptr, tree);
if (set_locus) text->set_location (0, DECL_SOURCE_LOCATION (t),
SHOW_RANGE_WITH_CARET); }` of `c_tree_printer`: the value of `t` and the
message afterwards.  `t` stays `NULL_TREE` for the code `v`. -/
def c_tree_printer_fetch (px : c_printer_context) (text : text_info) (spec : Char)
    (set_locus : Bool) : Option (tree × text_info) :=
  if spec ≠ 'v' then
    match va_arg_tree text with
    | none => none
    | some (t, text) =>
      if set_locus = true then
        if t = NULL_TREE then none
        else some (t, text.set_location (px.DECL_SOURCE_LOCATION t)
          range_display_kind.SHOW_RANGE_WITH_CARET)
      else some (t, text)
  else some (NULL_TREE, text)

/-- The statements of `case 'F':` in `c_tree_printer` and, when the declaration
has no name, the statements after the `switch`. -/
def c_tree_printer_case_F (px : c_printer_context) (pp : pretty_printer) (text : text_info)
    (quoted : Bool) (t : tree) : Option printer_result :=
  if t = NULL_TREE then none
  else if DECL_NAME t ≠ NULL_TREE then
    some ⟨true, ⟨pp_identifier pp.base (px.cx.decl_printable_name t), pp.padding⟩,
      text, quoted⟩
  else some ⟨true, ⟨pp_string pp.base anonymous_text, pp.padding⟩, text, quoted⟩

/-- `c_tree_printer (pp, text, spec, precision, wide, set_locus, hash, quoted,
...)`, where `spec` is the directive code `*spec`.  `none`: the call does not
return (a read through a null pointer, a missing argument, a failed
assertion). -/
def c_tree_printer (px : c_printer_context) (pp : pretty_printer) (text : text_info)
    (spec : Char) (precision : Int) (wide set_locus hash quoted : Bool) :
    Option printer_result :=
  -- pp->padding = pp_none
  let pp : pretty_printer := ⟨pp.base, pp_padding.pp_none⟩
  if precision ≠ 0 ∨ wide = true then some ⟨false, pp, text, quoted⟩
  else if spec = 'G' then some ⟨true, pp, px.percent_G_format text, quoted⟩
  else if spec = 'K' then
    match va_arg_tree text with
    | none => none
    | some (t, text) =>
      if t = NULL_TREE then none
      else
        some ⟨true, pp, px.percent_K_format text (px.EXPR_LOCATION t) (px.TREE_BLOCK t),
          quoted⟩
  else
    match c_tree_printer_fetch px text spec set_locus with
    | none => none
    | some (t, text) =>
      if spec = 'D' then
        if t = NULL_TREE then none
        else if VAR_P t = true ∧ px.DECL_HAS_DEBUG_EXPR_P t = true then
          let t := px.DECL_DEBUG_EXPR t
          if t = NULL_TREE then none
          else if DECL_P t = false then
            some ⟨true, ⟨pp_string pp.base (px.expression t), pp.padding⟩, text, quoted⟩
          else c_tree_printer_case_F px pp text quoted t
        else c_tree_printer_case_F px pp text quoted t
      else if spec = 'F' then c_tree_printer_case_F px pp text quoted t
      else if spec = 'T' then
        match print_type px.cx pp.base t quoted with
        | none => none
        | some (cpp, quoted) => some ⟨true, ⟨cpp, pp.padding⟩, text, quoted⟩
      else if spec = 'E' then
        if t = NULL_TREE then none
        else if TREE_CODE t = some IDENTIFIER_NODE then
          some ⟨true, ⟨pp_identifier pp.base (IDENTIFIER_POINTER t).toList, pp.padding⟩,
            text, quoted⟩
        else some ⟨true, ⟨pp_string pp.base (px.expression t), pp.padding⟩, text, quoted⟩
      else if spec = 'V' then
        some ⟨true, ⟨pp_string pp.base (px.type_qualifier_list t), pp.padding⟩, text, quoted⟩
      else if spec = 'v' then
        match va_arg_int text with
        | none => none
        | some (bits, text) =>
          some ⟨true, ⟨pp_string pp.base (px.cv_qualifiers bits hash), pp.padding⟩,
            text, quoted⟩
      else some ⟨false, pp, text, quoted⟩

/-- The directive codes that `c_tree_printer` handles. -/
def handled_codes : List Char := ['G', 'K', 'D', 'F', 'T', 'E', 'V', 'v']

/-- The text that stands for a declaration: its printable name when it has a
name, the anonymous placeholder otherwise. -/
def decl_label (px : c_printer_context) (t : tree) : List Char :=
  if DECL_NAME t ≠ NULL_TREE then px.cx.decl_printable_name t else anonymous_text

/-- The next argument of the message has the shape that the directive code
requires: none is required for `G` (the statement formatter takes its own); an
`int` for `v`; a tree otherwise, which is not null when `c_tree_printer` reads
one of its fields (for `K`, `D`, `F`, `E`, and when `set_locus` is set), whose
debug expression, when the code is `D` and it is a variable that has one, is
not null, and which, when the code is `T`, is a type whose comparison with its
canonical form returns. -/
def directive_argument_ok (px : c_printer_context) (text : text_info) (spec : Char)
    (set_locus : Bool) : Bool :=
  if spec = 'G' then true
  else if spec = 'v' then (va_arg_int text).isSome
  else
    match va_arg_tree text with
    | none => false
    | some (t, _) =>
      decide ((set_locus = true → t ≠ NULL_TREE)
        ∧ (spec = 'K' → t ≠ NULL_TREE)
        ∧ (spec = 'D' → t ≠ NULL_TREE
            ∧ (VAR_P t = true ∧ px.DECL_HAS_DEBUG_EXPR_P t = true →
                px.DECL_DEBUG_EXPR t ≠ NULL_TREE))
        ∧ (spec = 'F' → t ≠ NULL_TREE)
        ∧ (spec = 'E' → t ≠ NULL_TREE)
        ∧ (spec = 'T' → TYPE_P t = true
            ∧ (px.cx.TYPE_CANONICAL t ≠ NULL_TREE →
                useful_aka_type_p t (px.cx.TYPE_CANONICAL t) ≠ none)))

/-! ## `range_label_for_type_mismatch::get_text` -/

/-- Modelled from the spec: `label_text` (libcpp, not under src): the text of a
label, absent when the pointer is null, and whether the caller owns it. -/
structure label_text where
  m_buffer : Option (List Char)
  m_caller_owned : Bool
  deriving DecidableEq

/-- `range_label_for_type_mismatch::get_text (range_idx)` for the labelled type
`m_labelled_type`. -/
def range_label_for_type_mismatch.get_text (cx : c_context) (m_labelled_type : tree) :
    Option label_text :=
  if m_labelled_type = NULL_TREE then some ⟨none, false⟩
  else
    let cpp := c_pretty_printer.fresh
    let quoted := false
    match print_type cx cpp m_labelled_type quoted with
    | none => none
    | some (cpp, _) =>
      -- label_text (xstrdup (pp_formatted_text (&cpp)), true)
      some ⟨some cpp.obstack, true⟩

/-! ## `useful_aka_type_p` with a budget of calls

The same function, where each call and each iteration of the loop takes one
unit from a budget instead of relying on the shape of the arguments. -/

/-- The size of a tree: the number of its nodes. -/
def tree_size : tree → Nat
  | NULL_TREE => 0
  | node _ _ _ name type values value chain original_type =>
    1 + tree_size name + tree_size type + tree_size values + tree_size value
      + tree_size chain + tree_size original_type

mutual
/-- `useful_aka_type_p (type1, type2)` run with a budget: the outer `none` says
that the budget ran out before the call returned. -/
def useful_aka_type_p_fuel : Nat → tree → tree → Option (Option Bool)
  | 0, _, _ => none
  | fuel + 1, type1, type2 =>
    if type1 = type2 then some (some false)
    else if type1 = error_mark_node ∨ type2 = error_mark_node then some (some false)
    else
      match type1, type2 with
      | NULL_TREE, _ => some none
      | _, NULL_TREE => some none
      | node _ code1 _ _ tree_type1 values1 _ _ _,
        node _ code2 _ _ tree_type2 values2 _ _ _ =>
        if code1 ≠ code2 then some (some true)
        else if typedef_variant_p type1 = true then
          let code := code2
          let id2 := TYPE_IDENTIFIER type2
          if (code = RECORD_TYPE ∨ code = UNION_TYPE ∨ code = ENUMERAL_TYPE)
              ∧ (id2 = NULL_TREE ∨ TYPE_IDENTIFIER type1 = id2)
          then some (some false)
          else some (some true)
        else
          match code1 with
          | POINTER_TYPE | REFERENCE_TYPE =>
            useful_aka_type_p_fuel fuel tree_type1 tree_type2
          | ARRAY_TYPE =>
            match useful_aka_type_p_fuel fuel values1 values2 with
            | none => none
            | some none => some none
            | some (some true) => some (some true)
            | some (some false) => useful_aka_type_p_fuel fuel tree_type1 tree_type2
          | FUNCTION_TYPE =>
            match useful_aka_args_fuel fuel values1 values2 with
            | none => none
            | some none => some none
            | some (some true) => some (some true)
            | some (some false) => useful_aka_type_p_fuel fuel tree_type1 tree_type2
          | _ => some (some true)
/-- The loop of the `FUNCTION_TYPE` case run with a budget. -/
def useful_aka_args_fuel : Nat → tree → tree → Option (Option Bool)
  | 0, _, _ => none
  | fuel + 1, args1, args2 =>
    if args1 = args2 then some (some false)
    else if args1 = NULL_TREE ∨ args1 = void_type_node then some (some true)
    else if args2 = NULL_TREE ∨ args2 = void_type_node then some (some true)
    else
      match args1, args2 with
      | NULL_TREE, _ => some none
      | _, NULL_TREE => some none
      | node _ _ _ _ _ _ value1 chain1 _, node _ _ _ _ _ _ value2 chain2 _ =>
        match useful_aka_type_p_fuel fuel value1 value2 with
        | none => none
        | some none => some none
        | some (some true) => some (some true)
        | some (some false) => useful_aka_args_fuel fuel chain1 chain2
end

/-! ## Example declarations and messages -/

/-- A declaration node at address `uid`, named `name`. -/
def make_decl (uid : Nat) (code : tree_code) (name : String) : tree :=
  node uid code "" (get_identifier name) NULL_TREE NULL_TREE NULL_TREE NULL_TREE NULL_TREE

/-- The variable `x`. -/
def var_x : tree := make_decl 80 VAR_DECL "x"

/-- A variable `tmp` that the compiler made; its debug expression is the
variable `x`. -/
def var_tmp : tree := make_decl 81 VAR_DECL "tmp"

/-- The function `f`. -/
def function_f : tree := make_decl 82 FUNCTION_DECL "f"

/-- A parameter without a name. -/
def parm_anon : tree :=
  node 83 PARM_DECL "" NULL_TREE NULL_TREE NULL_TREE NULL_TREE NULL_TREE NULL_TREE

/-- A context for the examples of `c_tree_printer`: a declaration at address
`uid` was declared at position `100 + uid`; `tmp` has the debug expression
`x`; the formatters of statements and call sites leave the message as it is. -/
def example_printer_context : c_printer_context where
  cx := example_context
  expression := fun _ => "<expression>".toList
  type_qualifier_list := fun _ => "const".toList
  cv_qualifiers := fun _ _ => "volatile".toList
  percent_G_format := fun text => text
  percent_K_format := fun text _ _ => text
  EXPR_LOCATION := fun _ => 7
  TREE_BLOCK := fun _ => NULL_TREE
  DECL_SOURCE_LOCATION := fun t =>
    match t with
    | NULL_TREE => 0
    | node uid _ _ _ _ _ _ _ _ => 100 + uid
  DECL_HAS_DEBUG_EXPR_P := fun t => t = var_tmp
  DECL_DEBUG_EXPR := fun t => if t = var_tmp then var_x else NULL_TREE

/-- A printer that holds the text `in `. -/
def example_printer : pretty_printer := ⟨⟨"in ".toList, false⟩, pp_padding.pp_before⟩

/-- A message at position 5 whose next argument is the tree `t`. -/
def example_text (t : tree) : text_info :=
  ⟨[va_value.tree_value t, va_value.int_value 1], 5,
    range_display_kind.SHOW_RANGE_WITHOUT_CARET⟩

/-! ## Lemmas -/

theorem node_ne_of_code_ne {u1 u2 : Nat} {k1 k2 : tree_code} {s1 s2 : String}
    {n1 ty1 vs1 v1 ch1 o1 n2 ty2 vs2 v2 ch2 o2 : tree} (hc : k1 ≠ k2) :
    node u1 k1 s1 n1 ty1 vs1 v1 ch1 o1 ≠ node u2 k2 s2 n2 ty2 vs2 v2 ch2 o2 := by
  intro h
  injection h with _ hk
  exact hc hk

theorem TREE_CODE_eq_some {t : tree} {c : tree_code} (h : TREE_CODE t = some c) :
    ∃ u s n ty vs v ch o, t = node u c s n ty vs v ch o := by
  cases t with
  | NULL_TREE => simp [TREE_CODE] at h
  | node u k s n ty vs v ch o =>
    simp only [TREE_CODE, Option.some.injEq] at h
    subst h
    exact ⟨u, s, n, ty, vs, v, ch, o, rfl⟩

theorem ne_error_mark_node_of_code {t : tree} {c : tree_code} (h : TREE_CODE t = some c)
    (hc : c ≠ ERROR_MARK) : t ≠ error_mark_node := by
  intro he
  subst he
  simp [TREE_CODE, error_mark_node] at h
  exact hc h.symm

theorem useful_aka_type_p_self (t : tree) : useful_aka_type_p t t = some false := by
  unfold useful_aka_type_p
  simp

theorem c_or_list_same (l : List tree) :
    c_or_list (List.zipWith useful_aka_type_p l l) = some false := by
  induction l with
  | nil => rfl
  | cons a l ih =>
    simp only [List.zipWith_cons_cons, c_or_list, useful_aka_type_p_self, c_or, ih]

theorem arg_values_eq_nil_fixed {a : tree} (h : arg_values a = [])
    (hf : args_fixed_p a = true) : a = void_list_node := by
  cases a with
  | NULL_TREE => simp [args_fixed_p] at hf
  | node u k s n ty vs v ch o =>
    by_contra hne
    simp [arg_values, hne] at h

theorem arg_values_eq_nil_not_fixed {a : tree} (h : arg_values a = [])
    (hf : args_fixed_p a = false) : a = NULL_TREE := by
  cases a with
  | NULL_TREE => rfl
  | node u k s n ty vs v ch o =>
    by_cases hv : node u k s n ty vs v ch o = void_list_node
    · simp [args_fixed_p, hv] at hf
    · simp [arg_values, hv] at h

theorem useful_aka_args_eq (a1 : tree) : ∀ a2 : tree,
    arg_list_p a1 = true → arg_list_p a2 = true →
    (arg_values a1).length = (arg_values a2).length →
    args_fixed_p a1 = args_fixed_p a2 →
    useful_aka_args a1 a2
      = c_or_list (List.zipWith useful_aka_type_p (arg_values a1) (arg_values a2)) := by
  induction a1 with
  | NULL_TREE =>
    intro a2 _ _ hlen hfix
    have h2 : arg_values a2 = [] := by
      apply List.eq_nil_of_length_eq_zero
      rw [← hlen]; rfl
    have : a2 = NULL_TREE := arg_values_eq_nil_not_fixed h2 (by rw [← hfix]; rfl)
    subst this
    unfold useful_aka_args
    simp [arg_values, c_or_list]
  | node u k s n ty vs v ch o _ _ _ _ ihch _ =>
    intro a2 hw1 hw2 hlen hfix
    by_cases hv1 : node u k s n ty vs v ch o = void_list_node
    · have hnil1 : arg_values (node u k s n ty vs v ch o) = [] := by simp [arg_values, hv1]
      have hfix1 : args_fixed_p (node u k s n ty vs v ch o) = true := by
        simp [args_fixed_p, hv1]
      have h2 : arg_values a2 = [] := by
        apply List.eq_nil_of_length_eq_zero
        rw [← hlen, hnil1]; rfl
      have : a2 = void_list_node := arg_values_eq_nil_fixed h2 (by rw [← hfix, hfix1])
      rw [hnil1, h2, this, ← hv1]
      unfold useful_aka_args
      simp [c_or_list]
    · have hval1 : arg_values (node u k s n ty vs v ch o) = v :: arg_values ch := by
        simp [arg_values, hv1]
      have hfix1 : args_fixed_p (node u k s n ty vs v ch o) = args_fixed_p ch := by
        simp [args_fixed_p, hv1]
      have hk : k = TREE_LIST ∧ arg_list_p ch = true := by
        simpa [arg_list_p, hv1] using hw1
      cases a2 with
      | NULL_TREE =>
        rw [hval1] at hlen
        simp [arg_values] at hlen
      | node u2 k2 s2 n2 ty2 vs2 v2 ch2 o2 =>
        by_cases hv2 : node u2 k2 s2 n2 ty2 vs2 v2 ch2 o2 = void_list_node
        · have hnil2 : arg_values (node u2 k2 s2 n2 ty2 vs2 v2 ch2 o2) = [] := by
            simp [arg_values, hv2]
          rw [hval1, hnil2] at hlen
          simp at hlen
        · have hval2 : arg_values (node u2 k2 s2 n2 ty2 vs2 v2 ch2 o2)
              = v2 :: arg_values ch2 := by
            simp [arg_values, hv2]
          have hfix2 : args_fixed_p (node u2 k2 s2 n2 ty2 vs2 v2 ch2 o2)
              = args_fixed_p ch2 := by
            simp [args_fixed_p, hv2]
          have hk2 : k2 = TREE_LIST ∧ arg_list_p ch2 = true := by
            simpa [arg_list_p, hv2] using hw2
          rw [hval1, hval2] at hlen ⊢
          simp only [List.length_cons, Nat.add_right_cancel_iff] at hlen
          rw [hfix1, hfix2] at hfix
          have ih := ihch ch2 hk.2 hk2.2 hlen hfix
          by_cases heq : node u k s n ty vs v ch o = node u2 k2 s2 n2 ty2 vs2 v2 ch2 o2
          · have hvv : v = v2 := by injection heq
            have hcc : ch = ch2 := by injection heq
            subst hvv hcc
            have := c_or_list_same (v :: arg_values ch)
            simp only [List.zipWith_cons_cons] at this ⊢
            rw [this]
            unfold useful_aka_args
            simp [heq]
          · obtain ⟨rfl, _⟩ := hk
            obtain ⟨rfl, _⟩ := hk2
            conv_lhs => unfold useful_aka_args
            simp only [heq, if_false, List.zipWith_cons_cons, c_or_list]
            rw [← ih]
            have hn1 : node u TREE_LIST s n ty vs v ch o ≠ void_type_node := by
              unfold void_type_node
              exact node_ne_of_code_ne (by decide)
            have hn2 : node u2 TREE_LIST s2 n2 ty2 vs2 v2 ch2 o2 ≠ void_type_node := by
              unfold void_type_node
              exact node_ne_of_code_ne (by decide)
            simp only [hn1, hn2, or_self, if_false, reduceCtorEq]
            cases hres : useful_aka_type_p v v2 with
            | none => simp [c_or]
            | some b => cases b <;> simp [c_or]

theorem c_or_list_zipWith (f : tree → tree → Option Bool) (l1 : List tree) :
    ∀ l2 : List tree,
    (∀ (i : Nat) (p q : tree), l1[i]? = some p → l2[i]? = some q → f p q ≠ none) →
    c_or_list (List.zipWith f l1 l2) ≠ none
      ∧ (c_or_list (List.zipWith f l1 l2) = some true ↔
          ∃ (i : Nat) (p q : tree), l1[i]? = some p ∧ l2[i]? = some q ∧ f p q = some true) := by
  induction l1 with
  | nil =>
    intro l2 _
    simp [c_or_list]
  | cons a l1 ih =>
    intro l2 hdef
    cases l2 with
    | nil => simp [c_or_list]
    | cons b l2 =>
      have hab : f a b ≠ none := hdef 0 a b (by simp) (by simp)
      have hrest := ih l2 (fun i p q hp hq => hdef (i + 1) p q (by simpa using hp)
        (by simpa using hq))
      simp only [List.zipWith_cons_cons, c_or_list]
      cases hf : f a b with
      | none => exact absurd hf hab
      | some r =>
        cases r with
        | true =>
          simp only [c_or, ne_eq, reduceCtorEq, not_false_eq_true, true_and, true_iff]
          exact ⟨0, a, b, by simp, by simp, hf⟩
        | false =>
          simp only [c_or]
          refine ⟨hrest.1, ?_⟩
          rw [hrest.2]
          constructor
          · rintro ⟨i, p, q, hp, hq, hpq⟩
            exact ⟨i + 1, p, q, by simpa using hp, by simpa using hq, hpq⟩
          · rintro ⟨i, p, q, hp, hq, hpq⟩
            cases i with
            | zero =>
              simp only [List.getElem?_cons_zero, Option.some.injEq] at hp hq
              subst hp hq
              rw [hf] at hpq
              simp at hpq
            | succ i =>
              exact ⟨i, p, q, by simpa using hp, by simpa using hq, hpq⟩

theorem tree_size_children (u : Nat) (k : tree_code) (s : String)
    (n ty vs v ch o : tree) :
    tree_size (node u k s n ty vs v ch o)
      = 1 + tree_size n + tree_size ty + tree_size vs + tree_size v + tree_size ch
        + tree_size o := by
  simp [tree_size]

theorem useful_aka_fuel_eq (fuel : Nat) :
    (∀ t1 t2 : tree, min (tree_size t1) (tree_size t2) < fuel →
        useful_aka_type_p_fuel fuel t1 t2 = some (useful_aka_type_p t1 t2))
      ∧ (∀ a1 a2 : tree, min (tree_size a1) (tree_size a2) < fuel →
        useful_aka_args_fuel fuel a1 a2 = some (useful_aka_args a1 a2)) := by
  induction fuel with
  | zero =>
    constructor <;> intro _ _ h <;> exact absurd h (Nat.not_lt_zero _)
  | succ fuel ih =>
    obtain ⟨ih1, ih2⟩ := ih
    constructor
    · intro t1 t2 h
      unfold useful_aka_type_p_fuel useful_aka_type_p
      by_cases heq : t1 = t2
      · simp [heq]
      by_cases herr : t1 = error_mark_node ∨ t2 = error_mark_node
      · simp [heq, herr]
      simp only [heq, herr, if_false]
      cases t1 with
      | NULL_TREE => cases t2 <;> rfl
      | node u1 k1 s1 n1 ty1 vs1 v1 ch1 o1 =>
        cases t2 with
        | NULL_TREE => rfl
        | node u2 k2 s2 n2 ty2 vs2 v2 ch2 o2 =>
          rw [tree_size_children, tree_size_children] at h
          have hty := ih1 ty1 ty2 (by omega)
          have hvs := ih1 vs1 vs2 (by omega)
          have hargs := ih2 vs1 vs2 (by omega)
          by_cases hk : k1 = k2
          · subst hk
            by_cases hal : typedef_variant_p (node u1 k1 s1 n1 ty1 vs1 v1 ch1 o1) = true
            · simp only [ne_eq, not_true_eq_false, if_false, hal, if_true]
              split <;> rfl
            · simp only [ne_eq, not_true_eq_false, if_false, hal, Bool.false_eq_true]
              cases k1 <;> simp only [hty, hvs, hargs, c_or]
              · cases useful_aka_type_p vs1 vs2 with
                | none => rfl
                | some b => cases b <;> rfl
              · cases useful_aka_args vs1 vs2 with
                | none => rfl
                | some b => cases b <;> rfl
          · simp [hk]
    · intro a1 a2 h
      unfold useful_aka_args_fuel useful_aka_args
      by_cases heq : a1 = a2
      · simp [heq]
      by_cases h1 : a1 = NULL_TREE ∨ a1 = void_type_node
      · simp [heq, h1]
      by_cases h2 : a2 = NULL_TREE ∨ a2 = void_type_node
      · simp [heq, h1, h2]
      simp only [heq, h1, h2, if_false]
      cases a1 with
      | NULL_TREE => cases a2 <;> rfl
      | node u1 k1 s1 n1 ty1 vs1 v1 ch1 o1 =>
        cases a2 with
        | NULL_TREE => rfl
        | node u2 k2 s2 n2 ty2 vs2 v2 ch2 o2 =>
          rw [tree_size_children, tree_size_children] at h
          have hv := ih1 v1 v2 (by omega)
          have hch := ih2 ch1 ch2 (by omega)
          simp only [hv, hch]
          cases useful_aka_type_p v1 v2 with
          | none => rfl
          | some b => cases b <;> rfl

theorem memcmp_slice_iff (room : Nat) (ob label aka : List Char) :
    (aka.length = (ob ++ label).length - ob.length
        ∧ memcmp_at_p room ((ob ++ label).drop ob.length) aka aka.length = true)
      ↔ aka = label ∧ label.length ≤ room := by
  simp only [List.length_append, Nat.add_sub_cancel_left, List.drop_left, memcmp_at_p,
    memcmp_eq]
  by_cases hfit : label.length ≤ room
  · simp only [hfit, if_true, decide_eq_true_eq, List.take_length, and_true]
    constructor
    · rintro ⟨hlen, htake⟩
      rw [hlen, List.take_length] at htake
      exact htake.symm
    · rintro rfl
      simp
  · simp [hfit]

theorem print_type_eq (cx : c_context) (cpp : c_pretty_printer) (t : tree) (quoted : Bool)
    (ht : TYPE_P t = true) :
    print_type cx cpp t quoted =
      if cx.TYPE_CANONICAL t = NULL_TREE then
        some (⟨cpp.obstack ++ primary_label cx t, cpp.show_color⟩, quoted)
      else
        match useful_aka_type_p t (cx.TYPE_CANONICAL t) with
        | none => none
        | some false => some (⟨cpp.obstack ++ primary_label cx t, cpp.show_color⟩, quoted)
        | some true =>
          if cx.type_id (cx.TYPE_CANONICAL t) = primary_label cx t
              ∧ (primary_label cx t).length ≤ cx.obstack_room cpp then
            some (⟨cpp.obstack ++ primary_label cx t, cpp.show_color⟩, quoted)
          else
            some (⟨cpp.obstack ++ primary_label cx t
                ++ aka_clause cx cpp.show_color quoted (cx.TYPE_CANONICAL t),
              cpp.show_color⟩, false) := by
  have hlabel : (if TYPE_NAME t ≠ NULL_TREE ∧ TREE_CODE (TYPE_NAME t) = some TYPE_DECL
          ∧ DECL_NAME (TYPE_NAME t) ≠ NULL_TREE
        then pp_identifier cpp (cx.decl_printable_name (TYPE_NAME t))
        else c_pretty_printer.type_id cx cpp t)
      = ⟨cpp.obstack ++ primary_label cx t, cpp.show_color⟩ := by
    unfold primary_label
    split <;> simp [pp_identifier, c_pretty_printer.type_id, pp_string]
  unfold print_type
  simp only [ht, Bool.true_eq_false, if_false, hlabel]
  by_cases hc : cx.TYPE_CANONICAL t = NULL_TREE
  · simp [hc]
  · simp only [hc, if_false]
    cases hu : useful_aka_type_p t (cx.TYPE_CANONICAL t) with
    | none => rfl
    | some b =>
      cases b with
      | false => rfl
      | true =>
        simp only [c_pretty_printer.type_id, c_pretty_printer.fresh, pp_string,
          List.nil_append, memcmp_slice_iff]
        by_cases hsame : cx.type_id (cx.TYPE_CANONICAL t) = primary_label cx t
            ∧ (primary_label cx t).length ≤ cx.obstack_room cpp
        · simp [hsame]
        · simp only [hsame, if_false]
          cases quoted <;>
            simp [aka_clause, pp_end_quote, pp_begin_quote, pp_c_whitespace, pp_left_brace,
              pp_right_brace, pp_c_ws_string, pp_string, pp_show_color, List.append_assoc]

theorem aka_clause_ne_nil (cx : c_context) (show_color quoted : Bool) (c : tree) :
    aka_clause cx show_color quoted c ≠ [] := by
  unfold aka_clause
  simp

theorem print_type_isSome (cx : c_context) (cpp : c_pretty_printer) (t : tree) (quoted : Bool)
    (ht : TYPE_P t = true)
    (hret : cx.TYPE_CANONICAL t ≠ NULL_TREE →
      useful_aka_type_p t (cx.TYPE_CANONICAL t) ≠ none) :
    ∃ r, print_type cx cpp t quoted = some r := by
  rw [print_type_eq cx cpp t quoted ht]
  by_cases hc : cx.TYPE_CANONICAL t = NULL_TREE
  · simp [hc]
  · have hr := hret hc
    simp only [hc, if_false]
    cases hu : useful_aka_type_p t (cx.TYPE_CANONICAL t) with
    | none => exact absurd hu hr
    | some b =>
      cases b with
      | false => simp
      | true =>
        by_cases hsame : cx.type_id (cx.TYPE_CANONICAL t) = primary_label cx t
            ∧ (primary_label cx t).length ≤ cx.obstack_room cpp
        · simp [hsame]
        · simp [hsame]

theorem print_type_moved (cx : c_context) (cpp : c_pretty_printer) (t c : tree)
    (quoted : Bool) (ht : TYPE_P t = true) (hc : cx.TYPE_CANONICAL t = c)
    (hc0 : c ≠ NULL_TREE) (hu : useful_aka_type_p t c = some true)
    (hmoved : cx.obstack_room cpp < (primary_label cx t).length) :
    print_type cx cpp t quoted
      = some (⟨cpp.obstack ++ primary_label cx t ++ aka_clause cx cpp.show_color quoted c,
          cpp.show_color⟩, false) := by
  subst hc
  rw [print_type_eq cx cpp t quoted ht]
  simp only [hc0, if_false, hu, Nat.not_le_of_lt hmoved, and_false]

theorem print_type_same (cx : c_context) (cpp : c_pretty_printer) (t c : tree)
    (quoted : Bool) (ht : TYPE_P t = true) (hc : cx.TYPE_CANONICAL t = c)
    (hc0 : c ≠ NULL_TREE) (hu : useful_aka_type_p t c = some true)
    (hsame : cx.type_id c = primary_label cx t)
    (hfit : (primary_label cx t).length ≤ cx.obstack_room cpp) :
    print_type cx cpp t quoted
      = some (⟨cpp.obstack ++ primary_label cx t, cpp.show_color⟩, quoted) := by
  subst hc
  rw [print_type_eq cx cpp t quoted ht]
  simp only [hc0, if_false, hu, hsame, hfit, and_self, if_true]

theorem vector_context_room (n : Nat) :
    vector_context.obstack_room (printer_with n) = 4048 - n := by
  show 4048 - (List.replicate n 'a').length = 4048 - n
  rw [List.length_replicate]

theorem print_type_int8x8_moved :
    print_type vector_context (printer_with 4041) typedef_int8x8 true
      = some (⟨List.replicate 4041 'a'
          ++ "int8x8_t’ \x7baka ‘int8x8_t’\x7d".toList, false⟩, false) := by
  have hl : primary_label vector_context typedef_int8x8 = "int8x8_t".toList := by decide
  have hak : aka_clause vector_context false true vector_int8x8
      = "’ \x7baka ‘int8x8_t’\x7d".toList := by decide
  have hcat : "int8x8_t".toList ++ "’ \x7baka ‘int8x8_t’\x7d".toList
      = "int8x8_t’ \x7baka ‘int8x8_t’\x7d".toList := by decide
  rw [print_type_moved vector_context (printer_with 4041) typedef_int8x8 vector_int8x8 true
    (by decide) (by decide) (by decide) (by decide)
    (by rw [vector_context_room, hl]; decide)]
  show some ((⟨List.replicate 4041 'a' ++ primary_label vector_context typedef_int8x8
      ++ aka_clause vector_context false true vector_int8x8, false⟩ : c_pretty_printer), false)
    = _
  rw [hl, hak, List.append_assoc, hcat]

theorem va_arg_tree_cons (text : text_info) (t : tree) (rest : List va_value)
    (h : text.args = va_value.tree_value t :: rest) :
    va_arg_tree text = some (t, ⟨rest, text.location, text.display⟩) := by
  unfold va_arg_tree
  rw [h]

theorem va_arg_tree_eq_some {text text1 : text_info} {t : tree}
    (h : va_arg_tree text = some (t, text1)) :
    text.args = va_value.tree_value t :: text1.args
      ∧ text1.location = text.location ∧ text1.display = text.display := by
  unfold va_arg_tree at h
  split at h
  · next t0 rest hargs =>
    simp only [Option.some.injEq, Prod.mk.injEq] at h
    obtain ⟨rfl, rfl⟩ := h
    exact ⟨hargs, rfl, rfl⟩
  · simp at h

theorem c_tree_printer_fetch_cons (px : c_printer_context) (text : text_info) (spec : Char)
    (set_locus : Bool) (t : tree) (rest : List va_value)
    (hv : spec ≠ 'v') (h : text.args = va_value.tree_value t :: rest)
    (hn : set_locus = true → t ≠ NULL_TREE) :
    c_tree_printer_fetch px text spec set_locus
      = some (t, if set_locus = true
          then ⟨rest, px.DECL_SOURCE_LOCATION t, range_display_kind.SHOW_RANGE_WITH_CARET⟩
          else ⟨rest, text.location, text.display⟩) := by
  unfold c_tree_printer_fetch
  rw [va_arg_tree_cons text t rest h]
  cases set_locus with
  | false => simp [hv]
  | true => simp [hv, hn rfl, text_info.set_location]

theorem c_tree_printer_fetch_some (px : c_printer_context) (text text1 : text_info)
    (spec : Char) (set_locus : Bool) (t : tree)
    (hv : spec ≠ 'v') (h : va_arg_tree text = some (t, text1))
    (hn : set_locus = true → t ≠ NULL_TREE) :
    c_tree_printer_fetch px text spec set_locus
      = some (t, if set_locus = true
          then text1.set_location (px.DECL_SOURCE_LOCATION t)
            range_display_kind.SHOW_RANGE_WITH_CARET
          else text1) := by
  unfold c_tree_printer_fetch
  rw [h]
  cases set_locus with
  | false => simp [hv]
  | true => simp [hv, hn rfl]

theorem directive_argument_ok_tree {px : c_printer_context} {text : text_info} {spec : Char}
    {set_locus : Bool} (hG : spec ≠ 'G') (hv : spec ≠ 'v')
    (hok : directive_argument_ok px text spec set_locus = true) :
    ∃ t text1, va_arg_tree text = some (t, text1)
      ∧ (set_locus = true → t ≠ NULL_TREE)
      ∧ (spec = 'K' → t ≠ NULL_TREE)
      ∧ (spec = 'D' → t ≠ NULL_TREE
          ∧ (VAR_P t = true ∧ px.DECL_HAS_DEBUG_EXPR_P t = true →
              px.DECL_DEBUG_EXPR t ≠ NULL_TREE))
      ∧ (spec = 'F' → t ≠ NULL_TREE)
      ∧ (spec = 'E' → t ≠ NULL_TREE)
      ∧ (spec = 'T' → TYPE_P t = true
          ∧ (px.cx.TYPE_CANONICAL t ≠ NULL_TREE →
              useful_aka_type_p t (px.cx.TYPE_CANONICAL t) ≠ none)) := by
  unfold directive_argument_ok at hok
  simp only [hG, hv, if_false] at hok
  cases hva : va_arg_tree text with
  | none => simp [hva] at hok
  | some p =>
    obtain ⟨t, text1⟩ := p
    simp only [hva, decide_eq_true_eq] at hok
    exact ⟨t, text1, rfl, hok⟩

theorem c_tree_printer_returns (px : c_printer_context) (pp : pretty_printer)
    (text : text_info) (spec : Char) (precision : Int) (wide set_locus hash quoted : Bool)
    (hp : precision = 0) (hw : wide = false)
    (hok : directive_argument_ok px text spec set_locus = true) :
    ∃ r, c_tree_printer px pp text spec precision wide set_locus hash quoted = some r
      ∧ r.handled = decide (spec ∈ handled_codes)
      ∧ (spec ∉ handled_codes → r.pp.base = pp.base)
      ∧ (spec = 'G' → r.text = px.percent_G_format text)
      ∧ (spec = 'K' → ∃ t text1, va_arg_tree text = some (t, text1)
          ∧ r.text = px.percent_K_format text1 (px.EXPR_LOCATION t) (px.TREE_BLOCK t))
      ∧ (spec = 'v' → r.text.location = text.location ∧ r.text.display = text.display)
      ∧ (spec ≠ 'G' → spec ≠ 'K' → spec ≠ 'v' →
          ∃ t text1, va_arg_tree text = some (t, text1)
            ∧ r.text = if set_locus = true
                then text1.set_location (px.DECL_SOURCE_LOCATION t)
                  range_display_kind.SHOW_RANGE_WITH_CARET
                else text1) := by
  subst hp hw
  unfold c_tree_printer
  simp only [ne_eq, not_true_eq_false, Bool.false_eq_true, or_self, if_false]
  by_cases hG : spec = 'G'
  · subst hG
    refine ⟨_, rfl, ?_⟩
    simp [handled_codes]
  simp only [hG, if_false]
  by_cases hv : spec = 'v'
  · subst hv
    have hint : ∃ p, va_arg_int text = some p := by
      unfold directive_argument_ok at hok
      simp only [Char.reduceEq, if_false, if_true] at hok
      cases h : va_arg_int text with
      | none => simp [h] at hok
      | some p => exact ⟨p, rfl⟩
    obtain ⟨⟨bits, text1⟩, hint⟩ := hint
    have hloc : text1.location = text.location ∧ text1.display = text.display := by
      unfold va_arg_int at hint
      split at hint
      · simp only [Option.some.injEq, Prod.mk.injEq] at hint
        obtain ⟨_, rfl⟩ := hint
        exact ⟨rfl, rfl⟩
      · simp at hint
    simp only [Char.reduceEq, if_false, c_tree_printer_fetch, ne_eq, not_true_eq_false,
      if_true, hint]
    refine ⟨_, rfl, ?_⟩
    simp [handled_codes, hloc]
  obtain ⟨t, text1, hva, hloc, hK, hD, hF, hE, hT⟩ := directive_argument_ok_tree hG hv hok
  by_cases hKc : spec = 'K'
  · subst hKc
    simp only [if_true, hva, hK rfl, if_false]
    refine ⟨_, rfl, ?_⟩
    simp [handled_codes]
    exact ⟨t, text1, ⟨rfl, rfl⟩, rfl⟩
  simp only [hKc, if_false, c_tree_printer_fetch_some px text text1 spec set_locus t hv hva hloc]
  have hcaseF : ∀ (t' : tree) (tx : text_info), t' ≠ NULL_TREE →
      ∃ r, c_tree_printer_case_F px ⟨pp.base, pp_padding.pp_none⟩ tx quoted t' = some r
        ∧ r.handled = true ∧ r.text = tx := by
    intro t' tx ht'
    unfold c_tree_printer_case_F
    by_cases hname : DECL_NAME t' = NULL_TREE
    · simp [ht', hname]
    · simp [ht', hname]
  by_cases hDc : spec = 'D'
  · subst hDc
    obtain ⟨htn, hdbg⟩ := hD rfl
    simp only [if_true, htn, if_false]
    by_cases hvar : VAR_P t = true ∧ px.DECL_HAS_DEBUG_EXPR_P t = true
    · have hs := hdbg hvar
      simp only [hvar, and_self, if_true, hs, if_false]
      by_cases hdecl : DECL_P (px.DECL_DEBUG_EXPR t) = false
      · simp only [hdecl, if_true]
        refine ⟨_, rfl, ?_⟩
        simp [handled_codes]
        exact ⟨t, text1, hva, rfl⟩
      · simp only [hdecl, if_false]
        obtain ⟨r, hr, hh, ht⟩ := hcaseF (px.DECL_DEBUG_EXPR t) _ hs
        refine ⟨r, hr, ?_⟩
        simp [handled_codes, hh, ht]
        exact ⟨t, text1, hva, rfl⟩
    · simp only [hvar, if_false]
      obtain ⟨r, hr, hh, ht⟩ := hcaseF t _ htn
      refine ⟨r, hr, ?_⟩
      simp [handled_codes, hh, ht]
      exact ⟨t, text1, hva, rfl⟩
  simp only [hDc, if_false]
  by_cases hFc : spec = 'F'
  · subst hFc
    simp only [if_true]
    obtain ⟨r, hr, hh, ht⟩ := hcaseF t _ (hF rfl)
    refine ⟨r, hr, ?_⟩
    simp [handled_codes, hh, ht]
    exact ⟨t, text1, hva, rfl⟩
  simp only [hFc, if_false]
  by_cases hTc : spec = 'T'
  · subst hTc
    obtain ⟨htp, hret⟩ := hT rfl
    obtain ⟨⟨cpp, q⟩, hpt⟩ := print_type_isSome px.cx pp.base t quoted htp hret
    simp only [if_true, hpt]
    refine ⟨_, rfl, ?_⟩
    simp [handled_codes]
    exact ⟨t, text1, hva, rfl⟩
  simp only [hTc, if_false]
  by_cases hEc : spec = 'E'
  · subst hEc
    simp only [if_true, hE rfl, if_false]
    by_cases hid : TREE_CODE t = some IDENTIFIER_NODE
    · simp only [hid, if_true]
      refine ⟨_, rfl, ?_⟩
      simp [handled_codes]
      exact ⟨t, text1, hva, rfl⟩
    · simp only [hid, if_false]
      refine ⟨_, rfl, ?_⟩
      simp [handled_codes]
      exact ⟨t, text1, hva, rfl⟩
  simp only [hEc, if_false]
  by_cases hVc : spec = 'V'
  · subst hVc
    simp only [if_true]
    refine ⟨_, rfl, ?_⟩
    simp [handled_codes]
    exact ⟨t, text1, hva, rfl⟩
  simp only [hVc, hv, if_false]
  refine ⟨_, rfl, ?_⟩
  simp [handled_codes, hG, hKc, hDc, hFc, hTc, hEc, hVc, hv]
  exact ⟨t, text1, hva, rfl⟩

/-! ## The claims of the specification -/

/-- C1: for a typedef variant `t1` and a type `t2` distinct from it, neither
being `error_mark_node`, with the same tree code `c`: `useful_aka_type_p`
returns false exactly when `t2` is a record, union or enumeral type whose
identifier is absent or is the identifier of `t1`, and returns true in every
other case. -/
theorem useful_aka_type_p_typedef (t1 t2 : tree) (c : tree_code)
    (h1 : TREE_CODE t1 = some c) (h2 : TREE_CODE t2 = some c) (hne : t1 ≠ t2)
    (he1 : t1 ≠ error_mark_node) (he2 : t2 ≠ error_mark_node)
    (hal : typedef_variant_p t1 = true) :
    (useful_aka_type_p t1 t2 = some false ↔
        (c = RECORD_TYPE ∨ c = UNION_TYPE ∨ c = ENUMERAL_TYPE)
          ∧ (TYPE_IDENTIFIER t2 = NULL_TREE ∨ TYPE_IDENTIFIER t2 = TYPE_IDENTIFIER t1))
      ∧ (¬ ((c = RECORD_TYPE ∨ c = UNION_TYPE ∨ c = ENUMERAL_TYPE)
          ∧ (TYPE_IDENTIFIER t2 = NULL_TREE ∨ TYPE_IDENTIFIER t2 = TYPE_IDENTIFIER t1))
        → useful_aka_type_p t1 t2 = some true) := by
  obtain ⟨u1, s1, n1, ty1, vs1, v1, ch1, o1, rfl⟩ := TREE_CODE_eq_some h1
  obtain ⟨u2, s2, n2, ty2, vs2, v2, ch2, o2, rfl⟩ := TREE_CODE_eq_some h2
  have hsym : (TYPE_IDENTIFIER (node u1 c s1 n1 ty1 vs1 v1 ch1 o1)
        = TYPE_IDENTIFIER (node u2 c s2 n2 ty2 vs2 v2 ch2 o2))
      ↔ (TYPE_IDENTIFIER (node u2 c s2 n2 ty2 vs2 v2 ch2 o2)
        = TYPE_IDENTIFIER (node u1 c s1 n1 ty1 vs1 v1 ch1 o1)) := eq_comm
  unfold useful_aka_type_p
  simp only [hne, he1, he2, hal, if_false, or_self, ne_eq, not_true_eq_false, if_true, hsym]
  by_cases hcond : (c = RECORD_TYPE ∨ c = UNION_TYPE ∨ c = ENUMERAL_TYPE)
      ∧ (TYPE_IDENTIFIER (node u2 c s2 n2 ty2 vs2 v2 ch2 o2) = NULL_TREE
        ∨ TYPE_IDENTIFIER (node u2 c s2 n2 ty2 vs2 v2 ch2 o2)
          = TYPE_IDENTIFIER (node u1 c s1 n1 ty1 vs1 v1 ch1 o1))
  · simp [hcond]
  · simp [hcond]

theorem useful_aka_type_p_typedef_witness :
    useful_aka_type_p typedef_Foo struct_Foo = some false
      ∧ useful_aka_type_p typedef_Foo_anon struct_anon = some false
      ∧ useful_aka_type_p typedef_Foo_Bar struct_Bar = some true :=
  ⟨(useful_aka_type_p_typedef typedef_Foo struct_Foo RECORD_TYPE (by decide) (by decide)
      (by decide) (by decide) (by decide) (by decide)).1.2 (by decide),
   (useful_aka_type_p_typedef typedef_Foo_anon struct_anon RECORD_TYPE (by decide) (by decide)
      (by decide) (by decide) (by decide) (by decide)).1.2 (by decide),
   (useful_aka_type_p_typedef typedef_Foo_Bar struct_Bar RECORD_TYPE (by decide) (by decide)
      (by decide) (by decide) (by decide) (by decide)).2 (by decide)⟩

/-- C2 as stated fails: `const int` is not a typedef variant, so its primary
label as stated is its structural spelling `const int`; it is its own canonical
form, so no aka clause is due; but `print_type` appends `int`, the name of the
declaration in its `TYPE_NAME`.  On `error_mark_node`, which is not `TYPE_P`,
the assertion of `print_type` fails and nothing is returned.  And for the
typedef `int8x8_t`, whose canonical form has the same text as its label, the
aka clause is printed all the same, and `quoted` cleared, when the buffer holds
4041 bytes: the 8 bytes of the label do not fit in the 7 bytes of room, the
text moves, and the comparison through the address taken before fails. -/
theorem print_type_label_counterexample :
    TYPE_P const_integer_type = true
      ∧ typedef_variant_p const_integer_type = false
      ∧ useful_aka_type_p const_integer_type
          (example_context.TYPE_CANONICAL const_integer_type) = some false
      ∧ primary_label_as_stated example_context const_integer_type = "const int".toList
      ∧ print_type example_context c_pretty_printer.fresh const_integer_type false
          = some (⟨"int".toList, false⟩, false)
      ∧ print_type example_context c_pretty_printer.fresh const_integer_type false
          ≠ some (⟨c_pretty_printer.fresh.obstack
              ++ primary_label_as_stated example_context const_integer_type, false⟩, false)
      ∧ print_type example_context c_pretty_printer.fresh error_mark_node false = none
      ∧ vector_context.type_id (vector_context.TYPE_CANONICAL typedef_int8x8)
          = primary_label vector_context typedef_int8x8
      ∧ print_type vector_context (printer_with 4041) typedef_int8x8 true
          = some (⟨List.replicate 4041 'a'
              ++ "int8x8_t’ \x7baka ‘int8x8_t’\x7d".toList, false⟩, false) := by
  exact ⟨by decide, by decide, by decide, by decide, by decide, by decide, by decide,
    by decide, print_type_int8x8_moved⟩

/-- C2 (amended): for every type `t` (`TYPE_P (t)`, as `print_type` asserts)
for which the comparison of `t` with its canonical form, when it has one,
returns, and whose primary label fits in the room of the chunk that holds the
text (the text is not moved while the label is printed): `print_type` appends
the primary label followed by a (non-empty) aka clause, and clears `quoted`,
exactly when `t` has a canonical form,
`useful_aka_type_p (t, TYPE_CANONICAL (t))` is true and the rendered text of the
canonical form differs from the rendered primary label; in every other case,
byte-identical texts included, it appends exactly the primary label and leaves
`quoted` unchanged.  The primary label is the declared name when
`TYPE_NAME (t)` is a type declaration that has a name, and the structural
spelling of `t` otherwise. -/
theorem print_type_aka_iff (cx : c_context) (cpp : c_pretty_printer) (t : tree)
    (quoted : Bool) (ht : TYPE_P t = true)
    (hret : cx.TYPE_CANONICAL t ≠ NULL_TREE →
      useful_aka_type_p t (cx.TYPE_CANONICAL t) ≠ none)
    (hfit : (primary_label cx t).length ≤ cx.obstack_room cpp) :
    print_type cx cpp t quoted =
        (if cx.TYPE_CANONICAL t ≠ NULL_TREE
            ∧ useful_aka_type_p t (cx.TYPE_CANONICAL t) = some true
            ∧ cx.type_id (cx.TYPE_CANONICAL t) ≠ primary_label cx t
          then
            some (⟨cpp.obstack ++ primary_label cx t
                ++ aka_clause cx cpp.show_color quoted (cx.TYPE_CANONICAL t),
              cpp.show_color⟩, false)
          else some (⟨cpp.obstack ++ primary_label cx t, cpp.show_color⟩, quoted))
      ∧ aka_clause cx cpp.show_color quoted (cx.TYPE_CANONICAL t) ≠ [] := by
  refine ⟨?_, aka_clause_ne_nil _ _ _ _⟩
  rw [print_type_eq cx cpp t quoted ht]
  by_cases hc : cx.TYPE_CANONICAL t = NULL_TREE
  · simp [hc]
  · have hr := hret hc
    simp only [hc, if_false, ne_eq, not_false_eq_true, true_and, hfit, and_true]
    cases hu : useful_aka_type_p t (cx.TYPE_CANONICAL t) with
    | none => exact absurd hu hr
    | some b =>
      cases b with
      | false => simp
      | true =>
        by_cases hsame : cx.type_id (cx.TYPE_CANONICAL t) = primary_label cx t
        · simp [hsame]
        · simp [hsame]

theorem print_type_aka_iff_witness :
    print_type example_context c_pretty_printer.fresh typedef_Foo true
        = some (⟨"Foo".toList, false⟩, true)
      ∧ print_type vector_context c_pretty_printer.fresh typedef_int8x8 true
        = some (⟨"int8x8_t".toList, false⟩, true)
      ∧ print_type example_context c_pretty_printer.fresh typedef_myint false
        = some (⟨"myint \x7baka int\x7d".toList, false⟩, false) :=
  ⟨(print_type_aka_iff example_context c_pretty_printer.fresh typedef_Foo true
      (by decide) (by decide) (by decide)).1.trans (by decide),
   (print_type_aka_iff vector_context c_pretty_printer.fresh typedef_int8x8 true
      (by decide) (by decide) (by decide)).1.trans (by decide),
   (print_type_aka_iff example_context c_pretty_printer.fresh typedef_myint false
      (by decide) (by decide) (by decide)).1.trans (by decide)⟩

/-- C3: for every type `t` with a canonical form `c` such that
`useful_aka_type_p (t, c)` is true and the rendered text of `c` differs from
the rendered primary label of `t`, `print_type` appends exactly the primary
label, an end-quote marker if `quoted` was true, the text `" {aka "`, a
begin-quote marker if `quoted` was true, the rendered text of `c`, an end-quote
marker if `quoted` was true, and `"}"`: one aka clause; `quoted` is false
afterwards. -/
theorem print_type_aka (cx : c_context) (cpp : c_pretty_printer) (t c : tree)
    (quoted : Bool) (ht : TYPE_P t = true) (hc : cx.TYPE_CANONICAL t = c)
    (hc0 : c ≠ NULL_TREE) (hu : useful_aka_type_p t c = some true)
    (hdiff : cx.type_id c ≠ primary_label cx t) :
    print_type cx cpp t quoted =
      some (⟨cpp.obstack
          ++ (primary_label cx t
            ++ (if quoted then cx.close_quote cpp.show_color else [])
            ++ " \x7baka ".toList
            ++ (if quoted then cx.open_quote cpp.show_color else [])
            ++ cx.type_id c
            ++ (if quoted then cx.close_quote cpp.show_color else [])
            ++ "\x7d".toList),
        cpp.show_color⟩, false) := by
  subst hc
  rw [print_type_eq cx cpp t quoted ht]
  simp only [hc0, if_false, hu, hdiff, false_and, aka_clause, List.append_assoc]

theorem print_type_aka_witness :
    print_type example_context ⟨"type ‘".toList, false⟩ typedef_myint true
      = some (⟨"type ‘myint’ \x7baka ‘int’\x7d".toList, false⟩, false) :=
  (print_type_aka example_context ⟨"type ‘".toList, false⟩ typedef_myint integer_type true
    (by decide) (by decide) (by decide) (by decide) (by decide)).trans (by decide)

/-- C4: for every tree `t`, of any shape (typedef variants, `error_mark_node`
and the null pointer included), `useful_aka_type_p (t, t)` returns false. -/
theorem useful_aka_type_p_same (t : tree) : useful_aka_type_p t t = some false := by
  unfold useful_aka_type_p
  simp

/-- C5: for every tree `t`, `useful_aka_type_p (error_mark_node, t)` and
`useful_aka_type_p (t, error_mark_node)` both return false, whatever `t` is
(its code is not read). -/
theorem useful_aka_type_p_error (t : tree) :
    useful_aka_type_p error_mark_node t = some false
      ∧ useful_aka_type_p t error_mark_node = some false := by
  constructor
  · unfold useful_aka_type_p
    simp
  · unfold useful_aka_type_p
    simp

/-- C6 fails on the code: `int (int)` and `int (int, <erroneous>, ...)` are two
function types whose parameter lists have lengths 1 and 2, and
`useful_aka_type_p` returns false on them, in either order.  When the first
list is at its end the cell is `void_list_node`, which the test
`args1 == void_type_node` does not recognise; the loop goes on to compare
`void_type_node` with `error_mark_node` (false), both chains then end in the
null pointer, and the identical return types compare false. -/
theorem useful_aka_type_p_arity_mismatch :
    TREE_CODE function_int = some FUNCTION_TYPE
      ∧ TREE_CODE function_int_error_variadic = some FUNCTION_TYPE
      ∧ arg_values (TYPE_ARG_TYPES function_int) = [integer_type]
      ∧ arg_values (TYPE_ARG_TYPES function_int_error_variadic)
          = [integer_type, error_mark_node]
      ∧ useful_aka_type_p function_int function_int_error_variadic = some false
      ∧ useful_aka_type_p function_int_error_variadic function_int = some false := by
  decide

/-- C7: for two distinct function types, the first of which is not a typedef
variant, whose parameter lists have the same length and end the same way (both
fixed or both variadic), and whose parameter and return comparisons all return:
`useful_aka_type_p` returns, and it returns true exactly when the comparison of
the parameter types at some position is true or the comparison of the return
types is true. -/
theorem useful_aka_type_p_function (t1 t2 : tree)
    (h1 : TREE_CODE t1 = some FUNCTION_TYPE) (h2 : TREE_CODE t2 = some FUNCTION_TYPE)
    (hne : t1 ≠ t2) (hal : typedef_variant_p t1 = false)
    (hw1 : arg_list_p (TYPE_ARG_TYPES t1) = true)
    (hw2 : arg_list_p (TYPE_ARG_TYPES t2) = true)
    (hlen : (arg_values (TYPE_ARG_TYPES t1)).length = (arg_values (TYPE_ARG_TYPES t2)).length)
    (hfix : args_fixed_p (TYPE_ARG_TYPES t1) = args_fixed_p (TYPE_ARG_TYPES t2))
    (hdef : ∀ (i : Nat) (p q : tree), (arg_values (TYPE_ARG_TYPES t1))[i]? = some p →
      (arg_values (TYPE_ARG_TYPES t2))[i]? = some q → useful_aka_type_p p q ≠ none)
    (hret : useful_aka_type_p (TREE_TYPE t1) (TREE_TYPE t2) ≠ none) :
    useful_aka_type_p t1 t2 ≠ none
      ∧ (useful_aka_type_p t1 t2 = some true ↔
          (∃ (i : Nat) (p q : tree), (arg_values (TYPE_ARG_TYPES t1))[i]? = some p
              ∧ (arg_values (TYPE_ARG_TYPES t2))[i]? = some q
              ∧ useful_aka_type_p p q = some true)
            ∨ useful_aka_type_p (TREE_TYPE t1) (TREE_TYPE t2) = some true) := by
  have he1 : t1 ≠ error_mark_node := ne_error_mark_node_of_code h1 (by decide)
  have he2 : t2 ≠ error_mark_node := ne_error_mark_node_of_code h2 (by decide)
  obtain ⟨u1, s1, n1, ty1, vs1, v1, ch1, o1, rfl⟩ := TREE_CODE_eq_some h1
  obtain ⟨u2, s2, n2, ty2, vs2, v2, ch2, o2, rfl⟩ := TREE_CODE_eq_some h2
  simp only [TYPE_ARG_TYPES, TREE_TYPE] at hw1 hw2 hlen hfix hdef hret ⊢
  have key : useful_aka_type_p (node u1 FUNCTION_TYPE s1 n1 ty1 vs1 v1 ch1 o1)
        (node u2 FUNCTION_TYPE s2 n2 ty2 vs2 v2 ch2 o2)
      = c_or (c_or_list (List.zipWith useful_aka_type_p (arg_values vs1) (arg_values vs2)))
          (useful_aka_type_p ty1 ty2) := by
    conv_lhs => unfold useful_aka_type_p
    simp only [hne, he1, he2, hal, if_false, or_self, ne_eq, not_true_eq_false,
      Bool.false_eq_true]
    rw [useful_aka_args_eq vs1 vs2 hw1 hw2 hlen hfix]
    cases c_or_list (List.zipWith useful_aka_type_p (arg_values vs1) (arg_values vs2)) with
    | none => simp [c_or]
    | some b => cases b <;> simp [c_or]
  obtain ⟨hd, hiff⟩ := c_or_list_zipWith useful_aka_type_p (arg_values vs1) (arg_values vs2) hdef
  rw [key, ← hiff]
  cases hl : c_or_list (List.zipWith useful_aka_type_p (arg_values vs1) (arg_values vs2)) with
  | none => exact absurd hl hd
  | some b =>
    cases b with
    | true => simp [c_or]
    | false => simp [c_or, hret]

theorem useful_aka_type_p_function_witness :
    useful_aka_type_p function_myint function_int = some true :=
  (useful_aka_type_p_function function_myint function_int (by decide) (by decide) (by decide)
    (by decide) (by decide) (by decide) (by decide) (by decide)
    (by
      intro i p q hp hq
      match i with
      | 0 =>
        simp only [function_myint, function_int, make_type, tree_cons, TYPE_ARG_TYPES] at hp hq
        have hp : p = typedef_myint := by
          simpa [arg_values, void_list_node, eq_comm] using hp
        have hq : q = integer_type := by
          simpa [arg_values, void_list_node, eq_comm] using hq
        subst hp hq
        decide
      | i + 1 =>
        simp only [function_myint, function_int, make_type, tree_cons, TYPE_ARG_TYPES] at hp
        simp [arg_values, void_list_node] at hp)
    (by decide)).2.2 (Or.inl ⟨0, typedef_myint, integer_type, by decide, by decide, by decide⟩)

/-- C8: for two distinct pointer types, or two distinct reference types, the
first of which is not a typedef variant, `useful_aka_type_p` gives what it gives
on the two pointed-to types. -/
theorem useful_aka_type_p_pointer (t1 t2 : tree) (c : tree_code)
    (hc : c = POINTER_TYPE ∨ c = REFERENCE_TYPE)
    (h1 : TREE_CODE t1 = some c) (h2 : TREE_CODE t2 = some c) (hne : t1 ≠ t2)
    (hal : typedef_variant_p t1 = false) :
    useful_aka_type_p t1 t2 = useful_aka_type_p (TREE_TYPE t1) (TREE_TYPE t2) := by
  have he1 : t1 ≠ error_mark_node :=
    ne_error_mark_node_of_code h1 (by rcases hc with rfl | rfl <;> decide)
  have he2 : t2 ≠ error_mark_node :=
    ne_error_mark_node_of_code h2 (by rcases hc with rfl | rfl <;> decide)
  obtain ⟨u1, s1, n1, ty1, vs1, v1, ch1, o1, rfl⟩ := TREE_CODE_eq_some h1
  obtain ⟨u2, s2, n2, ty2, vs2, v2, ch2, o2, rfl⟩ := TREE_CODE_eq_some h2
  conv_lhs => unfold useful_aka_type_p
  rcases hc with rfl | rfl <;> simp [hne, he1, he2, hal, TREE_TYPE]

theorem useful_aka_type_p_pointer_witness :
    useful_aka_type_p pointer_myvec pointer_v16
      = useful_aka_type_p typedef_myvec struct_v16 :=
  useful_aka_type_p_pointer pointer_myvec pointer_v16 POINTER_TYPE (Or.inl rfl)
    (by decide) (by decide) (by decide) (by decide)

/-- C9: for two distinct array types, the first of which is not a typedef
variant, `useful_aka_type_p` is the `||` of its results on the two domains and
on the two element types, the domains first; two absent domains are the same
(null) pointer and compare false, so that for two arrays without a domain the
result is the comparison of the element types. -/
theorem useful_aka_type_p_array (t1 t2 : tree)
    (h1 : TREE_CODE t1 = some ARRAY_TYPE) (h2 : TREE_CODE t2 = some ARRAY_TYPE)
    (hne : t1 ≠ t2) (hal : typedef_variant_p t1 = false) :
    useful_aka_type_p t1 t2
        = c_or (useful_aka_type_p (TYPE_DOMAIN t1) (TYPE_DOMAIN t2))
            (useful_aka_type_p (TREE_TYPE t1) (TREE_TYPE t2))
      ∧ (∀ a b : Bool, useful_aka_type_p (TYPE_DOMAIN t1) (TYPE_DOMAIN t2) = some a →
          useful_aka_type_p (TREE_TYPE t1) (TREE_TYPE t2) = some b →
          useful_aka_type_p t1 t2 = some (a || b))
      ∧ (TYPE_DOMAIN t1 = NULL_TREE → TYPE_DOMAIN t2 = NULL_TREE →
          useful_aka_type_p (TYPE_DOMAIN t1) (TYPE_DOMAIN t2) = some false
            ∧ useful_aka_type_p t1 t2 = useful_aka_type_p (TREE_TYPE t1) (TREE_TYPE t2)) := by
  have he1 : t1 ≠ error_mark_node := ne_error_mark_node_of_code h1 (by decide)
  have he2 : t2 ≠ error_mark_node := ne_error_mark_node_of_code h2 (by decide)
  obtain ⟨u1, s1, n1, ty1, vs1, v1, ch1, o1, rfl⟩ := TREE_CODE_eq_some h1
  obtain ⟨u2, s2, n2, ty2, vs2, v2, ch2, o2, rfl⟩ := TREE_CODE_eq_some h2
  have key : useful_aka_type_p (node u1 ARRAY_TYPE s1 n1 ty1 vs1 v1 ch1 o1)
        (node u2 ARRAY_TYPE s2 n2 ty2 vs2 v2 ch2 o2)
      = c_or (useful_aka_type_p vs1 vs2) (useful_aka_type_p ty1 ty2) := by
    conv_lhs => unfold useful_aka_type_p
    simp [hne, he1, he2, hal]
  refine ⟨key, ?_, ?_⟩
  · intro a b ha hb
    simp only [TYPE_DOMAIN, TREE_TYPE] at ha hb
    rw [key, ha, hb]
    cases a <;> simp [c_or]
  · intro hd1 hd2
    simp only [TYPE_DOMAIN] at hd1 hd2
    subst hd1 hd2
    simp only [TYPE_DOMAIN, TREE_TYPE]
    rw [key, useful_aka_type_p_self]
    simp [c_or]

theorem useful_aka_type_p_array_witness :
    useful_aka_type_p array_myint array_int = useful_aka_type_p typedef_myint integer_type :=
  ((useful_aka_type_p_array array_myint array_int (by decide) (by decide) (by decide)
    (by decide)).2.2 (by decide) (by decide)).2

/-- C10: for two types, neither of them `error_mark_node`, whose tree codes
differ, `useful_aka_type_p` returns true, whether or not either is a typedef
variant. -/
theorem useful_aka_type_p_code_ne (t1 t2 : tree) (c1 c2 : tree_code)
    (h1 : TREE_CODE t1 = some c1) (h2 : TREE_CODE t2 = some c2) (hc : c1 ≠ c2)
    (he1 : t1 ≠ error_mark_node) (he2 : t2 ≠ error_mark_node) :
    useful_aka_type_p t1 t2 = some true := by
  obtain ⟨u1, s1, n1, ty1, vs1, v1, ch1, o1, rfl⟩ := TREE_CODE_eq_some h1
  obtain ⟨u2, s2, n2, ty2, vs2, v2, ch2, o2, rfl⟩ := TREE_CODE_eq_some h2
  unfold useful_aka_type_p
  simp [node_ne_of_code_ne hc, he1, he2, hc]

theorem useful_aka_type_p_code_ne_witness :
    useful_aka_type_p typedef_myint float_type = some true :=
  useful_aka_type_p_code_ne typedef_myint float_type INTEGER_TYPE REAL_TYPE
    (by decide) (by decide) (by decide) (by decide) (by decide)

/-- C11: when `precision` is not 0 (for instance 3) or `wide` is set,
`c_tree_printer` returns false whatever the directive code, the arguments and
the flags `set_locus` and `hash` are; the text of the printer, the list of
arguments not yet consumed, the primary location of the message and `*quoted`
are as before (only `pp->padding` was set to `pp_none`). -/
theorem c_tree_printer_declines (px : c_printer_context) (pp : pretty_printer)
    (text : text_info) (spec : Char) (precision : Int) (wide set_locus hash quoted : Bool)
    (h : precision ≠ 0 ∨ wide = true) :
    c_tree_printer px pp text spec precision wide set_locus hash quoted
      = some ⟨false, ⟨pp.base, pp_padding.pp_none⟩, text, quoted⟩ := by
  unfold c_tree_printer
  simp only [h, if_true]

theorem c_tree_printer_declines_witness :
    c_tree_printer example_printer_context example_printer (example_text typedef_myint)
        'T' 3 false true false true
      = some ⟨false, ⟨example_printer.base, pp_padding.pp_none⟩,
          example_text typedef_myint, true⟩ :=
  c_tree_printer_declines example_printer_context example_printer
    (example_text typedef_myint) 'T' 3 false true false true (Or.inl (by decide))

/-- C12: with `precision` 0 and `wide` unset, and a next argument of the shape
that the directive code requires, `c_tree_printer` returns, and it returns true
exactly when the code is one of `G`, `K`, `D`, `F`, `T`, `E`, `V`, `v`; for
every other code it returns false and the text of the printer is as before. -/
theorem c_tree_printer_handled (px : c_printer_context) (pp : pretty_printer)
    (text : text_info) (spec : Char) (precision : Int) (wide set_locus hash quoted : Bool)
    (hp : precision = 0) (hw : wide = false)
    (hok : directive_argument_ok px text spec set_locus = true) :
    ∃ r, c_tree_printer px pp text spec precision wide set_locus hash quoted = some r
      ∧ (r.handled = true ↔ spec ∈ ['G', 'K', 'D', 'F', 'T', 'E', 'V', 'v'])
      ∧ (spec ∉ ['G', 'K', 'D', 'F', 'T', 'E', 'V', 'v'] →
          r.handled = false ∧ r.pp.base.obstack = pp.base.obstack) := by
  obtain ⟨r, hr, hh, hb, _⟩ :=
    c_tree_printer_returns px pp text spec precision wide set_locus hash quoted hp hw hok
  refine ⟨r, hr, ?_, ?_⟩
  · rw [hh]
    simp [handled_codes]
  · intro hnot
    have hnot' : spec ∉ handled_codes := hnot
    refine ⟨?_, by rw [hb hnot']⟩
    rw [hh]
    simpa [handled_codes] using hnot

theorem c_tree_printer_handled_witness :
    (∃ r, c_tree_printer example_printer_context example_printer (example_text typedef_myint)
          'T' 0 false false false true = some r
        ∧ (r.handled = true ↔ 'T' ∈ ['G', 'K', 'D', 'F', 'T', 'E', 'V', 'v'])
        ∧ ('T' ∉ ['G', 'K', 'D', 'F', 'T', 'E', 'V', 'v'] →
            r.handled = false ∧ r.pp.base.obstack = example_printer.base.obstack))
      ∧ (∃ r, c_tree_printer example_printer_context example_printer
            (example_text typedef_myint) 'x' 0 false false false true = some r
        ∧ (r.handled = true ↔ 'x' ∈ ['G', 'K', 'D', 'F', 'T', 'E', 'V', 'v'])
        ∧ ('x' ∉ ['G', 'K', 'D', 'F', 'T', 'E', 'V', 'v'] →
            r.handled = false ∧ r.pp.base.obstack = example_printer.base.obstack)) :=
  ⟨c_tree_printer_handled example_printer_context example_printer
      (example_text typedef_myint) 'T' 0 false false false true rfl rfl (by decide),
   c_tree_printer_handled example_printer_context example_printer
      (example_text typedef_myint) 'x' 0 false false false true rfl rfl (by decide)⟩

/-- C13 as stated fails: with `set_locus` set, the codes `V` and `x` (a code that
is not recognised) also move the primary location of the message, here from
position 5 to the position 131 read from the argument, with the mode
`SHOW_RANGE_WITH_CARET`. -/
theorem c_tree_printer_location_counterexample :
    (example_text integer_type).location = 5
      ∧ c_tree_printer example_printer_context example_printer (example_text integer_type)
          'V' 0 false true false true
        = some ⟨true, ⟨⟨"in const".toList, false⟩, pp_padding.pp_none⟩,
            ⟨[va_value.int_value 1], 131, range_display_kind.SHOW_RANGE_WITH_CARET⟩, true⟩
      ∧ c_tree_printer example_printer_context example_printer (example_text integer_type)
          'x' 0 false true false true
        = some ⟨false, ⟨⟨"in ".toList, false⟩, pp_padding.pp_none⟩,
            ⟨[va_value.int_value 1], 131, range_display_kind.SHOW_RANGE_WITH_CARET⟩, true⟩ := by
  decide

/-- C13 (amended): `c_tree_printer` returns (given, when it does not decline, a
next argument of the shape that the code requires) and it sets the primary
location of the message itself exactly when `precision` is 0, `wide` is unset,
`set_locus` is set and the code is none of `G`, `K`, `v`, that is for `D`, `F`,
`T`, `E` and also for `V` and for every code that is not recognised: the
location is then `DECL_SOURCE_LOCATION` of the tree argument, with the mode
`SHOW_RANGE_WITH_CARET`.  When it declines for `precision` or `wide`, for the
code `v`, and whenever `set_locus` is unset and the code is not `G` or `K`, the
primary location is as before.  For `G` and `K` the message is what the
statement and call-site formatters leave. -/
theorem c_tree_printer_location (px : c_printer_context) (pp : pretty_printer)
    (text : text_info) (spec : Char) (precision : Int) (wide set_locus hash quoted : Bool)
    (hok : precision = 0 → wide = false →
      directive_argument_ok px text spec set_locus = true) :
    ∃ r, c_tree_printer px pp text spec precision wide set_locus hash quoted = some r
      ∧ (precision = 0 → wide = false → set_locus = true →
          spec ≠ 'G' → spec ≠ 'K' → spec ≠ 'v' →
          ∃ t rest, text.args = va_value.tree_value t :: rest
            ∧ r.text.location = px.DECL_SOURCE_LOCATION t
            ∧ r.text.display = range_display_kind.SHOW_RANGE_WITH_CARET)
      ∧ (precision ≠ 0 ∨ wide = true ∨ spec = 'v'
            ∨ (set_locus = false ∧ spec ≠ 'G' ∧ spec ≠ 'K') →
          r.text.location = text.location ∧ r.text.display = text.display)
      ∧ (precision = 0 → wide = false → spec = 'G' → r.text = px.percent_G_format text)
      ∧ (precision = 0 → wide = false → spec = 'K' →
          ∃ t rest, text.args = va_value.tree_value t :: rest
            ∧ r.text = px.percent_K_format ⟨rest, text.location, text.display⟩
                (px.EXPR_LOCATION t) (px.TREE_BLOCK t)) := by
  by_cases hdecl : precision ≠ 0 ∨ wide = true
  · refine ⟨⟨false, ⟨pp.base, pp_padding.pp_none⟩, text, quoted⟩, ?_, ?_, ?_, ?_, ?_⟩
    · unfold c_tree_printer
      simp only [hdecl, if_true]
    · intro hp hw
      rcases hdecl with h | h
      · exact absurd hp h
      · rw [hw] at h
        exact absurd h (by decide)
    · intro _
      exact ⟨rfl, rfl⟩
    · intro hp hw
      rcases hdecl with h | h
      · exact absurd hp h
      · rw [hw] at h
        exact absurd h (by decide)
    · intro hp hw
      rcases hdecl with h | h
      · exact absurd hp h
      · rw [hw] at h
        exact absurd h (by decide)
  · have hp : precision = 0 := by
      by_contra h
      exact hdecl (Or.inl h)
    have hw : wide = false := by
      cases wide with
      | false => rfl
      | true => exact absurd (Or.inr rfl) hdecl
    obtain ⟨r, hr, _, _, hG, hK, hv, hother⟩ :=
      c_tree_printer_returns px pp text spec precision wide set_locus hash quoted hp hw
        (hok hp hw)
    refine ⟨r, hr, ?_, ?_, fun _ _ h => hG h, ?_⟩
    · intro _ _ hs h1 h2 h3
      obtain ⟨t, text1, hva, ht⟩ := hother h1 h2 h3
      obtain ⟨hargs, _, _⟩ := va_arg_tree_eq_some hva
      refine ⟨t, text1.args, hargs, ?_, ?_⟩
      · rw [ht]
        simp [hs, text_info.set_location]
      · rw [ht]
        simp [hs, text_info.set_location]
    · intro h
      rcases h with h | h | h | ⟨hs, h1, h2⟩
      · exact absurd hp h
      · rw [hw] at h
        exact absurd h (by decide)
      · exact hv h
      · by_cases h3 : spec = 'v'
        · exact hv h3
        · obtain ⟨t, text1, hva, ht⟩ := hother h1 h2 h3
          obtain ⟨_, hl, hd⟩ := va_arg_tree_eq_some hva
          rw [ht]
          simp [hs, hl, hd]
    · intro _ _ h
      obtain ⟨t, text1, hva, ht⟩ := hK h
      obtain ⟨hargs, hl, hd⟩ := va_arg_tree_eq_some hva
      refine ⟨t, text1.args, hargs, ?_⟩
      rw [ht, ← hl, ← hd]

theorem c_tree_printer_location_witness :
    ∃ r, c_tree_printer example_printer_context example_printer (example_text function_f)
        'F' 0 false true false true = some r
      ∧ r.text.location = 182
      ∧ r.text.display = range_display_kind.SHOW_RANGE_WITH_CARET := by
  obtain ⟨r, hr, hset, _⟩ :=
    c_tree_printer_location example_printer_context example_printer
      (example_text function_f) 'F' 0 false true false true (fun _ _ => by decide)
  obtain ⟨t, rest, hargs, hl, hd⟩ :=
    hset rfl rfl rfl (by decide) (by decide) (by decide)
  have ht : t = function_f := by
    simp only [example_text, List.cons.injEq, va_value.tree_value.injEq] at hargs
    exact hargs.1.symm
  subst ht
  exact ⟨r, hr, hl, hd⟩

/-- C14 as stated fails: the variable `tmp` has the debug expression `x`, which
is itself a declaration; for the code `D`, `c_tree_printer` appends `x`, the
name of the substitute, while for the code `F` on the same `tmp` it appends
`tmp`. -/
theorem c_tree_printer_D_counterexample :
    VAR_P var_tmp = true
      ∧ example_printer_context.DECL_HAS_DEBUG_EXPR_P var_tmp = true
      ∧ DECL_P (example_printer_context.DECL_DEBUG_EXPR var_tmp) = true
      ∧ c_tree_printer example_printer_context example_printer (example_text var_tmp)
          'D' 0 false false false true
        = some ⟨true, ⟨⟨"in x".toList, false⟩, pp_padding.pp_none⟩,
            ⟨[va_value.int_value 1], 5, range_display_kind.SHOW_RANGE_WITHOUT_CARET⟩, true⟩
      ∧ c_tree_printer example_printer_context example_printer (example_text var_tmp)
          'F' 0 false false false true
        = some ⟨true, ⟨⟨"in tmp".toList, false⟩, pp_padding.pp_none⟩,
            ⟨[va_value.int_value 1], 5, range_display_kind.SHOW_RANGE_WITHOUT_CARET⟩, true⟩ := by
  decide

/-- C14 (amended): for a declaration `d` as next argument, `precision` 0 and
`wide` unset.  When `d` is not a variable that has a debug expression, the code
`D` does what the code `F` does on `d`: the same result, which is true with the
label of `d` appended (its printable name when it has one, the anonymous
placeholder otherwise).  When `d` is a variable whose debug expression is
itself a declaration `s`, the code `D` returns true and appends the label of
`s`, not that of `d`; the location, when `set_locus` is set, is that of `d`. -/
theorem c_tree_printer_D (px : c_printer_context) (pp : pretty_printer)
    (text : text_info) (d : tree) (rest : List va_value) (precision : Int)
    (wide set_locus hash quoted : Bool)
    (hp : precision = 0) (hw : wide = false)
    (hargs : text.args = va_value.tree_value d :: rest) (hd : d ≠ NULL_TREE) :
    (¬ (VAR_P d = true ∧ px.DECL_HAS_DEBUG_EXPR_P d = true) →
        c_tree_printer px pp text 'D' precision wide set_locus hash quoted
          = c_tree_printer px pp text 'F' precision wide set_locus hash quoted
        ∧ c_tree_printer px pp text 'D' precision wide set_locus hash quoted
          = some ⟨true,
              ⟨⟨pp.base.obstack ++ decl_label px d, pp.base.show_color⟩, pp_padding.pp_none⟩,
              if set_locus = true
              then ⟨rest, px.DECL_SOURCE_LOCATION d, range_display_kind.SHOW_RANGE_WITH_CARET⟩
              else ⟨rest, text.location, text.display⟩,
              quoted⟩)
      ∧ (VAR_P d = true ∧ px.DECL_HAS_DEBUG_EXPR_P d = true →
          DECL_P (px.DECL_DEBUG_EXPR d) = true →
          c_tree_printer px pp text 'D' precision wide set_locus hash quoted
            = some ⟨true,
                ⟨⟨pp.base.obstack ++ decl_label px (px.DECL_DEBUG_EXPR d),
                  pp.base.show_color⟩, pp_padding.pp_none⟩,
                if set_locus = true
                then ⟨rest, px.DECL_SOURCE_LOCATION d,
                  range_display_kind.SHOW_RANGE_WITH_CARET⟩
                else ⟨rest, text.location, text.display⟩,
                quoted⟩) := by
  subst hp hw
  have hcaseF : ∀ (t : tree) (tx : text_info), t ≠ NULL_TREE →
      c_tree_printer_case_F px ⟨pp.base, pp_padding.pp_none⟩ tx quoted t
        = some ⟨true,
            ⟨⟨pp.base.obstack ++ decl_label px t, pp.base.show_color⟩, pp_padding.pp_none⟩,
            tx, quoted⟩ := by
    intro t tx ht
    unfold c_tree_printer_case_F decl_label
    by_cases hname : DECL_NAME t = NULL_TREE
    · simp [ht, hname, pp_string]
    · simp [ht, hname, pp_string, pp_identifier]
  have hD : c_tree_printer px pp text 'D' 0 false set_locus hash quoted
      = (if VAR_P d = true ∧ px.DECL_HAS_DEBUG_EXPR_P d = true then
          (if px.DECL_DEBUG_EXPR d = NULL_TREE then none
            else if DECL_P (px.DECL_DEBUG_EXPR d) = false then
              some ⟨true, ⟨pp_string pp.base (px.expression (px.DECL_DEBUG_EXPR d)),
                pp_padding.pp_none⟩,
                if set_locus = true
                then ⟨rest, px.DECL_SOURCE_LOCATION d,
                  range_display_kind.SHOW_RANGE_WITH_CARET⟩
                else ⟨rest, text.location, text.display⟩, quoted⟩
            else c_tree_printer_case_F px ⟨pp.base, pp_padding.pp_none⟩
              (if set_locus = true
                then ⟨rest, px.DECL_SOURCE_LOCATION d,
                  range_display_kind.SHOW_RANGE_WITH_CARET⟩
                else ⟨rest, text.location, text.display⟩) quoted (px.DECL_DEBUG_EXPR d))
        else c_tree_printer_case_F px ⟨pp.base, pp_padding.pp_none⟩
          (if set_locus = true
            then ⟨rest, px.DECL_SOURCE_LOCATION d, range_display_kind.SHOW_RANGE_WITH_CARET⟩
            else ⟨rest, text.location, text.display⟩) quoted d) := by
    unfold c_tree_printer
    rw [c_tree_printer_fetch_cons px text 'D' set_locus d rest (by decide) hargs
      (fun _ => hd)]
    simp [hd]
  have hF : c_tree_printer px pp text 'F' 0 false set_locus hash quoted
      = c_tree_printer_case_F px ⟨pp.base, pp_padding.pp_none⟩
          (if set_locus = true
            then ⟨rest, px.DECL_SOURCE_LOCATION d, range_display_kind.SHOW_RANGE_WITH_CARET⟩
            else ⟨rest, text.location, text.display⟩) quoted d := by
    unfold c_tree_printer
    rw [c_tree_printer_fetch_cons px text 'F' set_locus d rest (by decide) hargs
      (fun _ => hd)]
    simp
  constructor
  · intro hnot
    rw [hD, hF]
    simp only [hnot, if_false, true_and]
    exact hcaseF d _ hd
  · intro hvar hdecl
    have hs : px.DECL_DEBUG_EXPR d ≠ NULL_TREE := by
      intro h
      rw [h] at hdecl
      simp [DECL_P] at hdecl
    rw [hD]
    simp only [hvar, and_self, if_true, hs, if_false, hdecl, Bool.true_eq_false]
    exact hcaseF _ _ hs

theorem c_tree_printer_D_witness :
    c_tree_printer example_printer_context example_printer (example_text var_x)
        'D' 0 false true false true
      = some ⟨true, ⟨⟨"in x".toList, false⟩, pp_padding.pp_none⟩,
          ⟨[va_value.int_value 1], 180, range_display_kind.SHOW_RANGE_WITH_CARET⟩, true⟩
    ∧ c_tree_printer example_printer_context example_printer (example_text var_tmp)
        'D' 0 false true false true
      = some ⟨true, ⟨⟨"in x".toList, false⟩, pp_padding.pp_none⟩,
          ⟨[va_value.int_value 1], 181, range_display_kind.SHOW_RANGE_WITH_CARET⟩, true⟩ :=
  ⟨((c_tree_printer_D example_printer_context example_printer (example_text var_x)
      var_x [va_value.int_value 1] 0 false true false true rfl rfl rfl
      (by decide)).1 (by decide)).2.trans (by decide),
   ((c_tree_printer_D example_printer_context example_printer (example_text var_tmp)
      var_tmp [va_value.int_value 1] 0 false true false true rfl rfl rfl
      (by decide)).2 (by decide) (by decide)).trans (by decide)⟩

/-- C15: for the code `F`, `precision` 0 and `wide` unset, and a declaration `d`
as next argument, `c_tree_printer` returns true and appends exactly the
printable name of `d` when `d` has a name, and exactly the text
`({anonymous})` when it has none; it does not fail or decline. -/
theorem c_tree_printer_F (px : c_printer_context) (pp : pretty_printer)
    (text : text_info) (d : tree) (rest : List va_value) (precision : Int)
    (wide set_locus hash quoted : Bool)
    (hp : precision = 0) (hw : wide = false)
    (hargs : text.args = va_value.tree_value d :: rest) (hd : d ≠ NULL_TREE) :
    c_tree_printer px pp text 'F' precision wide set_locus hash quoted
      = some ⟨true,
          ⟨⟨pp.base.obstack ++ (if DECL_NAME d ≠ NULL_TREE then px.cx.decl_printable_name d
              else "(\x7banonymous\x7d)".toList), pp.base.show_color⟩, pp_padding.pp_none⟩,
          if set_locus = true
          then ⟨rest, px.DECL_SOURCE_LOCATION d, range_display_kind.SHOW_RANGE_WITH_CARET⟩
          else ⟨rest, text.location, text.display⟩,
          quoted⟩ := by
  unfold c_tree_printer
  rw [c_tree_printer_fetch_cons px text 'F' set_locus d rest (by decide) hargs (fun _ => hd)]
  subst hp hw
  by_cases hname : DECL_NAME d = NULL_TREE
  · simp [c_tree_printer_case_F, hd, hname, pp_string, anonymous_text]
  · simp [c_tree_printer_case_F, hd, hname, pp_string, pp_identifier]

theorem c_tree_printer_F_witness :
    c_tree_printer example_printer_context example_printer (example_text function_f)
        'F' 0 false false false true
      = some ⟨true, ⟨⟨"in f".toList, false⟩, pp_padding.pp_none⟩,
          ⟨[va_value.int_value 1], 5, range_display_kind.SHOW_RANGE_WITHOUT_CARET⟩, true⟩
    ∧ c_tree_printer example_printer_context example_printer (example_text parm_anon)
        'F' 0 false true false true
      = some ⟨true, ⟨⟨"in (\x7banonymous\x7d)".toList, false⟩, pp_padding.pp_none⟩,
          ⟨[va_value.int_value 1], 183, range_display_kind.SHOW_RANGE_WITH_CARET⟩, true⟩ :=
  ⟨(c_tree_printer_F example_printer_context example_printer (example_text function_f)
      function_f [va_value.int_value 1] 0 false false false true rfl rfl rfl
      (by decide)).trans (by decide),
   (c_tree_printer_F example_printer_context example_printer (example_text parm_anon)
      parm_anon [va_value.int_value 1] 0 false true false true rfl rfl rfl
      (by decide)).trans (by decide)⟩

/-- C16: `get_text` returns no label (a null buffer) when the labelled type is
absent; for a type `t` (`TYPE_P (t)`, with a comparison with its canonical form
that returns) it returns, as a label owned by the caller, exactly the text that
`print_type` appends to an empty buffer when started with `quoted` false.  That
text is the primary label alone, or the primary label followed by `" {aka "`,
the spelling of the canonical form and `"}"`; no quote marker is part of it.
The second form is returned when `t` has a canonical form,
`useful_aka_type_p (t, TYPE_CANONICAL (t))` is true and either the two texts
differ or the label does not fit in the room of the fresh buffer. -/
theorem get_text_eq (cx : c_context) (t : tree) (ht : TYPE_P t = true)
    (hret : cx.TYPE_CANONICAL t ≠ NULL_TREE →
      useful_aka_type_p t (cx.TYPE_CANONICAL t) ≠ none) :
    range_label_for_type_mismatch.get_text cx NULL_TREE = some ⟨none, false⟩
      ∧ (∃ r, print_type cx c_pretty_printer.fresh t false = some r
          ∧ range_label_for_type_mismatch.get_text cx t = some ⟨some r.1.obstack, true⟩)
      ∧ (range_label_for_type_mismatch.get_text cx t
            = some ⟨some (primary_label cx t), true⟩
          ∨ range_label_for_type_mismatch.get_text cx t
            = some ⟨some (primary_label cx t ++ " \x7baka ".toList
                ++ cx.type_id (cx.TYPE_CANONICAL t) ++ "\x7d".toList), true⟩)
      ∧ range_label_for_type_mismatch.get_text cx t
          = some ⟨some (if cx.TYPE_CANONICAL t ≠ NULL_TREE
              ∧ useful_aka_type_p t (cx.TYPE_CANONICAL t) = some true
              ∧ (cx.type_id (cx.TYPE_CANONICAL t) ≠ primary_label cx t
                ∨ cx.obstack_room c_pretty_printer.fresh < (primary_label cx t).length)
            then primary_label cx t ++ " \x7baka ".toList
              ++ cx.type_id (cx.TYPE_CANONICAL t) ++ "\x7d".toList
            else primary_label cx t), true⟩ := by
  have hnn : t ≠ NULL_TREE := by
    intro h
    rw [h] at ht
    simp [TYPE_P] at ht
  have hmain : range_label_for_type_mismatch.get_text cx t
      = some ⟨some (if cx.TYPE_CANONICAL t ≠ NULL_TREE
          ∧ useful_aka_type_p t (cx.TYPE_CANONICAL t) = some true
          ∧ (cx.type_id (cx.TYPE_CANONICAL t) ≠ primary_label cx t
            ∨ cx.obstack_room c_pretty_printer.fresh < (primary_label cx t).length)
        then primary_label cx t ++ " \x7baka ".toList
          ++ cx.type_id (cx.TYPE_CANONICAL t) ++ "\x7d".toList
        else primary_label cx t), true⟩ := by
    have hfo : c_pretty_printer.fresh.obstack = [] := rfl
    unfold range_label_for_type_mismatch.get_text
    simp only [hnn, if_false]
    rw [print_type_eq cx c_pretty_printer.fresh t false ht]
    by_cases hc : cx.TYPE_CANONICAL t = NULL_TREE
    · simp [hc, hfo]
    · have hr := hret hc
      simp only [hc, if_false, ne_eq, not_false_eq_true, true_and]
      cases hu : useful_aka_type_p t (cx.TYPE_CANONICAL t) with
      | none => exact absurd hu hr
      | some b =>
        cases b with
        | false => simp [hfo]
        | true =>
          by_cases hsame : cx.type_id (cx.TYPE_CANONICAL t) = primary_label cx t
          · by_cases hfit : (primary_label cx t).length
                ≤ cx.obstack_room c_pretty_printer.fresh
            · simp [hsame, hfit, hfo, Nat.not_lt_of_le hfit]
            · have hlt : cx.obstack_room c_pretty_printer.fresh
                  < (primary_label cx t).length := Nat.lt_of_not_le hfit
              simp [hsame, hfit, hlt, hfo, aka_clause]
          · simp [hsame, hfo, aka_clause]
  refine ⟨by simp [range_label_for_type_mismatch.get_text], ?_, ?_, hmain⟩
  · obtain ⟨r, hr⟩ := print_type_isSome cx c_pretty_printer.fresh t false ht hret
    refine ⟨r, hr, ?_⟩
    unfold range_label_for_type_mismatch.get_text
    simp only [hnn, if_false, hr]
  · rw [hmain]
    split
    · exact Or.inr rfl
    · exact Or.inl rfl

theorem get_text_eq_witness :
    range_label_for_type_mismatch.get_text example_context typedef_myint
      = some ⟨some "myint \x7baka int\x7d".toList, true⟩ :=
  (get_text_eq example_context typedef_myint (by decide) (by decide)).2.2.2.trans
    (by decide)

/-- C17: for two distinct types, neither of them `error_mark_node`, with the
same tree code, the first of which is not a typedef variant, and whose code is
none of `POINTER_TYPE`, `REFERENCE_TYPE`, `ARRAY_TYPE`, `FUNCTION_TYPE`:
`useful_aka_type_p` returns true, whatever else the two types are (the second
may be a typedef variant that names the first). -/
theorem useful_aka_type_p_default (t1 t2 : tree) (c : tree_code)
    (h1 : TREE_CODE t1 = some c) (h2 : TREE_CODE t2 = some c) (hne : t1 ≠ t2)
    (he1 : t1 ≠ error_mark_node) (he2 : t2 ≠ error_mark_node)
    (hal : typedef_variant_p t1 = false)
    (hc : c ≠ POINTER_TYPE ∧ c ≠ REFERENCE_TYPE ∧ c ≠ ARRAY_TYPE ∧ c ≠ FUNCTION_TYPE) :
    useful_aka_type_p t1 t2 = some true := by
  obtain ⟨u1, s1, n1, ty1, vs1, v1, ch1, o1, rfl⟩ := TREE_CODE_eq_some h1
  obtain ⟨u2, s2, n2, ty2, vs2, v2, ch2, o2, rfl⟩ := TREE_CODE_eq_some h2
  unfold useful_aka_type_p
  simp only [hne, he1, he2, hal, if_false, or_self, ne_eq, not_true_eq_false,
    Bool.false_eq_true]
  obtain ⟨hc1, hc2, hc3, hc4⟩ := hc
  cases c <;> first | rfl | contradiction

theorem useful_aka_type_p_default_witness :
    useful_aka_type_p struct_Foo typedef_Foo = some true :=
  useful_aka_type_p_default struct_Foo typedef_Foo RECORD_TYPE (by decide) (by decide)
    (by decide) (by decide) (by decide) (by decide) (by decide)

/-- C18: `useful_aka_type_p` is not symmetric: the typedef `Foo` of
`struct Foo` against `struct Foo` gives false, and `struct Foo` against the
typedef gives true. -/
theorem useful_aka_type_p_not_symmetric :
    useful_aka_type_p typedef_Foo struct_Foo = some false
      ∧ useful_aka_type_p struct_Foo typedef_Foo = some true
      ∧ ¬ (∀ t1 t2 : tree, useful_aka_type_p t1 t2 = useful_aka_type_p t2 t1) := by
  refine ⟨by decide, by decide, ?_⟩
  intro h
  have := h typedef_Foo struct_Foo
  revert this
  decide

/-- C19 fails on the code: for the typedef `int8x8_t`, whose canonical form has
the same text as its label, and `quoted` set, `print_type` on an empty buffer
and on a buffer that holds 4040 bytes appends the label alone and leaves
`quoted` set; on a buffer that holds 4041 bytes the label no longer fits in the
chunk, the obstack moves the text, the comparison through the address taken
before the label was printed fails, and `print_type` appends the label and an
aka clause with the same text and clears `quoted`.  What is appended depends
on what the buffer holds. -/
theorem print_type_depends_on_buffer :
    vector_context.type_id (vector_context.TYPE_CANONICAL typedef_int8x8)
        = primary_label vector_context typedef_int8x8
      ∧ print_type vector_context (printer_with 0) typedef_int8x8 true
          = some (⟨"int8x8_t".toList, false⟩, true)
      ∧ print_type vector_context (printer_with 4040) typedef_int8x8 true
          = some (⟨List.replicate 4040 'a' ++ "int8x8_t".toList, false⟩, true)
      ∧ print_type vector_context (printer_with 4041) typedef_int8x8 true
          = some (⟨List.replicate 4041 'a'
              ++ "int8x8_t’ \x7baka ‘int8x8_t’\x7d".toList, false⟩, false) := by
  have hl : primary_label vector_context typedef_int8x8 = "int8x8_t".toList := by decide
  refine ⟨by decide, by decide, ?_, print_type_int8x8_moved⟩
  rw [print_type_same vector_context (printer_with 4040) typedef_int8x8 vector_int8x8 true
    (by decide) (by decide) (by decide) (by decide) (by decide)
    (by rw [vector_context_room, hl]; decide)]
  show some ((⟨List.replicate 4040 'a' ++ primary_label vector_context typedef_int8x8,
      false⟩ : c_pretty_printer), true) = _
  rw [hl]

/-- C20: `useful_aka_type_p` terminates on every pair of trees: run with a budget
of calls, in which every recursive call and every iteration of the parameter
loop costs one unit, it returns its result as soon as the budget exceeds the
size of the smaller argument, because every recursive call is made on proper
parts of both arguments and the loop moves both lists on by one cell; the
result is that of the function defined by recursion on the structure of its
arguments. -/
theorem useful_aka_type_p_terminates (fuel : Nat) (t1 t2 : tree)
    (h : min (tree_size t1) (tree_size t2) < fuel) :
    useful_aka_type_p_fuel fuel t1 t2 = some (useful_aka_type_p t1 t2) :=
  (useful_aka_fuel_eq fuel).1 t1 t2 h

theorem useful_aka_type_p_terminates_witness :
    useful_aka_type_p_fuel 16 function_myint function_int = some (some true) :=
  (useful_aka_type_p_terminates 16 function_myint function_int (by decide)).trans
    (by decide)
